import Mathlib

/-!
# RouterLLM front-end: a shallow embedding of the three page controllers

The repository holds three browser scripts: `api_config.js` (class
`ApiConfigManager`), `home.js` (class `HomeChat`) and `dashboard.js` (class
`RouterDashboard`).  Each controller is embedded as pure functions over an
explicit record of the fields and DOM elements it reads and writes.  An
`await`ed backend call is embedded by passing the outcome of the call as an
argument; the requests and timers a method issues are returned as a list of
effects.

JavaScript strings are sequences of UTF-16 code units, and `length`,
`substring`, `trim` and `includes` all count code units, so a string is
embedded as the list of its code units.
-/

namespace RouterLLM

/-! ## JavaScript strings -/

/-- A JavaScript string, as the list of its UTF-16 code units. -/
abbrev JSString := List Nat

/-- UTF-16 encoding of one Unicode scalar value. -/
def utf16 (c : Char) : List Nat :=
  if c.toNat < 0x10000 then [c.toNat]
  else [0xD800 + (c.toNat - 0x10000) / 0x400, 0xDC00 + (c.toNat - 0x10000) % 0x400]

/-- The JavaScript string written by a source literal. -/
def lit (s : String) : JSString := s.toList.flatMap utf16

/-- Clamp an index argument of `substring` into `[0, length]`. -/
def clampIndex (s : JSString) (i : Int) : Nat := min i.toNat s.length

/-- `s.substring(start, stop)`: both indices are clamped to `[0, s.length]` and
swapped when `start > stop`. -/
def substring (s : JSString) (start stop : Int) : JSString :=
  let a := clampIndex s start
  let b := clampIndex s stop
  (s.drop (min a b)).take (max a b - min a b)

/-- `s.substring(start)`: the end index defaults to `s.length`. -/
def substringFrom (s : JSString) (start : Int) : JSString :=
  substring s start s.length

/-- The code units that `String.prototype.trim` strips: ECMAScript WhiteSpace
and LineTerminator. -/
def isWhiteSpace (c : Nat) : Bool :=
  c == 0x09 || c == 0x0A || c == 0x0B || c == 0x0C || c == 0x0D || c == 0x20 ||
  c == 0xA0 || c == 0x1680 || (0x2000 ≤ c && c ≤ 0x200A) || c == 0x2028 ||
  c == 0x2029 || c == 0x202F || c == 0x205F || c == 0x3000 || c == 0xFEFF

/-- `s.trim()`. -/
def trim (s : JSString) : JSString :=
  ((s.dropWhile isWhiteSpace).reverse.dropWhile isWhiteSpace).reverse

/-- `s.includes(sub)`: `sub` occurs in `s` as a contiguous run of code units. -/
def includes : JSString → JSString → Bool
  | [], sub => sub.isEmpty
  | c :: s, sub => sub.isPrefixOf (c :: s) || includes s sub

/-- `s.toUpperCase()` on the ASCII letters; the controllers only apply it to
provider names. -/
def toUpperCase (s : JSString) : JSString :=
  s.map fun c => if 0x61 ≤ c ∧ c ≤ 0x7A then c - 0x20 else c

/-- Truthiness of a string: every string but the empty one. -/
def truthy (s : JSString) : Bool := !s.isEmpty

/-- A number interpolated into a template literal (non-negative integers). -/
def numText (n : Nat) : JSString := lit (toString n)

/-- An optional string interpolated into a template literal. -/
def optText (o : Option JSString) : JSString := o.getD (lit "undefined")

/-! ## JavaScript objects

An object is kept as the list of its members in creation order.  `JSON.parse`
creates the members in the order of the body, and `Object.entries` and
`Object.keys` list the keys that are array indices first. -/

/-- The number written by a key made of decimal digits. -/
def digitsValue (k : JSString) : Nat :=
  k.foldl (fun n c => 10 * n + (c - 0x30)) 0

/-- The array index a property key stands for, if any: the key is the decimal
form, with no leading zero, of an integer from `0` to `2 ^ 32 - 2`. -/
def arrayIndex (k : JSString) : Option Nat :=
  if k.all (fun c => 0x30 ≤ c && c ≤ 0x39) &&
      (k.length == 1 || (k.length > 1 && k.head? != some 0x30)) &&
      digitsValue k < 2 ^ 32 - 1 then
    some (digitsValue k)
  else none

/-- The assignment `object[key] = value` on the members of an object: a key the
object has keeps its place and gets the new value, a new key goes last. -/
def setMember {α : Type} (members : List (JSString × α)) (key : JSString) (value : α) :
    List (JSString × α) :=
  if members.any (fun e => e.1 == key) then
    members.map fun e => if e.1 == key then (key, value) else e
  else members ++ [(key, value)]

/-- The object `JSON.parse` builds from the members of a JSON object, read in the
order of the body. -/
def parseObject {α : Type} (body : List (JSString × α)) : List (JSString × α) :=
  body.foldl (fun object e => setMember object e.1 e.2) []

/-- `Object.entries(object)`: the keys that are array indices in ascending
order, then the other keys in creation order. -/
def objectEntries {α : Type} (members : List (JSString × α)) : List (JSString × α) :=
  (members.filter fun e => (arrayIndex e.1).isSome).insertionSort
      (fun a b => (arrayIndex a.1).getD 0 ≤ (arrayIndex b.1).getD 0) ++
    members.filter fun e => !(arrayIndex e.1).isSome

/-! ## `api_config.js`: class `ApiConfigManager` -/

namespace ApiConfigManager

/-- The three providers that have a key field and a status indicator. -/
inductive Provider
  | openai | anthropic | google
  deriving DecidableEq, Repr

/-- The provider name used in element ids and request bodies. -/
def Provider.name : Provider → JSString
  | .openai => lit "openai"
  | .anthropic => lit "anthropic"
  | .google => lit "google"

/-- One provider entry of the `/api-config/status` response. -/
structure ApiStatus where
  available : Bool
  key : Option JSString
  deriving DecidableEq, Repr

/-- The status indicator and key field of one provider. -/
structure ProviderRow where
  statusClass : String
  statusHTML : String
  keyValue : JSString
  keyDisabled : Bool
  deriving DecidableEq, Repr

/-- The kind of a transient alert. -/
inductive AlertType
  | info | success | warning | error
  deriving DecidableEq, Repr

/-- The transient alert at the top of the page. -/
structure Alert where
  message : JSString
  type : AlertType
  deriving DecidableEq, Repr

/-- The configuration page: the DOM the controller reads and writes. -/
structure Page where
  openai : ProviderRow
  anthropic : ProviderRow
  google : ProviderRow
  statusDotClass : String
  statusText : JSString
  alert : Option Alert
  deriving DecidableEq, Repr

/-- The element `event.target` of the handler that called a method. -/
structure Button where
  innerHTML : JSString
  disabled : Bool
  deriving DecidableEq, Repr

/-- A JSON request body. -/
inductive Body
  | providerKey (provider : JSString) (api_key : JSString)
  | keys (mapping : List (Provider × JSString))
  deriving DecidableEq, Repr

/-- A call of `fetch`. -/
structure Request where
  method : String
  url : String
  body : Option Body
  deriving DecidableEq, Repr

/-- A callback handed to `setTimeout`. -/
inductive Callback
  | removeAlert
  | loadCurrentKeys
  deriving DecidableEq, Repr

/-- What a method asks of the browser. -/
inductive Effect
  | fetch (req : Request)
  | setTimeout (cb : Callback) (ms : Nat)
  deriving DecidableEq, Repr

/-- The parsed JSON of a backend answer to test, save and save-all. -/
structure Result where
  success : Bool
  error : Option JSString
  saved_count : Option Nat
  deriving DecidableEq, Repr

/-- How `await fetch(..)` followed by `await response.json()` ends: with the
parsed body, or with a thrown error carrying a message. -/
inductive Outcome
  | resolved (result : Result)
  | rejected (message : JSString)
  deriving DecidableEq, Repr

/-- The row of a provider. -/
def Page.row (p : Page) : Provider → ProviderRow
  | .openai => p.openai
  | .anthropic => p.anthropic
  | .google => p.google

/-- Replace the row of a provider. -/
def Page.setRow (p : Page) : Provider → ProviderRow → Page
  | .openai, r => { p with openai := r }
  | .anthropic, r => { p with anthropic := r }
  | .google, r => { p with google := r }

/-- `maskKey(key)`. -/
def maskKey (key : JSString) : JSString :=
  if !truthy key || key.length < 10 then key
  else substring key 0 8 ++ lit "..." ++ substringFrom key ((key.length : Int) - 4)

/-- `updateApiStatus(provider, status)`. -/
def updateApiStatus (p : Page) (provider : Provider) (status : ApiStatus) : Page :=
  if status.available then
    p.setRow provider
      { statusClass := "status-indicator connected"
        statusHTML := "<i class=\"fas fa-check-circle\"></i><span>Conectado</span>"
        keyValue := match status.key with
          | some k => if truthy k then maskKey k else []
          | none => []
        keyDisabled := false }
  else
    p.setRow provider
      { statusClass := "status-indicator disconnected"
        statusHTML := "<i class=\"fas fa-times-circle\"></i><span>Desconectado</span>"
        keyValue := []
        keyDisabled := false }

/-- `connectedCount` of `updateOverallStatus`. -/
def connectedCount (data : List (JSString × ApiStatus)) : Nat :=
  (data.map Prod.snd |>.filter fun api => api.available).length

/-- `totalCount` of `updateOverallStatus`. -/
def totalCount (data : List (JSString × ApiStatus)) : Nat :=
  (data.map Prod.fst).length

/-- `updateOverallStatus(data)`; `data` lists the entries of the status object. -/
def updateOverallStatus (p : Page) (data : List (JSString × ApiStatus)) : Page :=
  if connectedCount data = totalCount data then
    { p with
      statusDotClass := "status-dot online"
      statusText := lit "Todas as APIs conectadas (" ++ numText (connectedCount data) ++
        lit "/" ++ numText (totalCount data) ++ lit ")" }
  else if connectedCount data > 0 then
    { p with
      statusDotClass := "status-dot"
      statusText := lit "Parcialmente conectado (" ++ numText (connectedCount data) ++
        lit "/" ++ numText (totalCount data) ++ lit ")" }
  else
    { p with
      statusDotClass := "status-dot"
      statusText := lit "Nenhuma API conectada" }

/-- `showAlert(message, type)`: earlier alerts are removed, the new one is
inserted and its removal is scheduled. -/
def showAlert (p : Page) (message : JSString) (type : AlertType) : Page × List Effect :=
  ({ p with alert := some ⟨message, type⟩ }, [.setTimeout .removeAlert 5000])

/-- How the status request of `loadCurrentKeys` ends: with the entries of the
parsed status object, or with a thrown error. -/
inductive StatusOutcome
  | resolved (data : List (JSString × ApiStatus))
  | rejected
  deriving DecidableEq, Repr

/-- Property read `data[name]` on the status object. -/
def lookup (data : List (JSString × ApiStatus)) (name : JSString) : Option ApiStatus :=
  (data.find? fun e => e.1 == name).map Prod.snd

/-- The `try` block of `loadCurrentKeys` after the response is parsed; `none`
when reading `status.available` of a missing entry throws.  The second
component is the page as the rows written before the throw left it. -/
def applyStatus (p : Page) (data : List (JSString × ApiStatus)) : Option Page × Page :=
  match lookup data (Provider.name .openai) with
  | none => (none, p)
  | some s1 =>
    let p1 := updateApiStatus p .openai s1
    match lookup data (Provider.name .anthropic) with
    | none => (none, p1)
    | some s2 =>
      let p2 := updateApiStatus p1 .anthropic s2
      match lookup data (Provider.name .google) with
      | none => (none, p2)
      | some s3 =>
        let p3 := updateApiStatus p2 .google s3
        (some (updateOverallStatus p3 data), p3)

/-- `loadCurrentKeys()`. -/
def loadCurrentKeys (p : Page) (outcome : StatusOutcome) : Page × List Effect :=
  let req : Request := { method := "GET", url := "/api-config/status", body := none }
  match outcome with
  | .resolved data =>
    match applyStatus p data with
    | (some p1, _) => (p1, [.fetch req])
    | (none, p1) =>
      let (p2, e) := showAlert p1 (lit "Erro ao carregar status das APIs") .error
      (p2, .fetch req :: e)
  | .rejected =>
    let (p2, e) := showAlert p (lit "Erro ao carregar status das APIs") .error
    (p2, .fetch req :: e)

/-- `testApiKey(provider)`, called from a click on `button`. -/
def testApiKey (p : Page) (provider : Provider) (button : Button) (outcome : Outcome) :
    Page × Button × List Effect :=
  let key := trim (p.row provider).keyValue
  if !truthy key then
    let (p1, e) := showAlert p (lit "Digite uma chave de API para testar") .warning
    (p1, button, e)
  else
    let originalText := button.innerHTML
    let busy : Button :=
      { innerHTML := lit "<i class=\"fas fa-spinner fa-spin\"></i> Testando...", disabled := true }
    let req : Request :=
      { method := "POST", url := "/api-config/test"
        body := some (.providerKey provider.name key) }
    let (p1, e) :=
      match outcome with
      | .resolved result =>
        if result.success then
          let (p1, e) := showAlert p
            (lit "✅ " ++ toUpperCase provider.name ++ lit " conectado com sucesso!") .success
          (updateApiStatus p1 provider { available := true, key := some key }, e)
        else
          showAlert p (lit "❌ Erro na conexão " ++ toUpperCase provider.name ++ lit ": " ++
            optText result.error) .error
      | .rejected message =>
        showAlert p (lit "❌ Erro ao testar " ++ toUpperCase provider.name ++ lit ": " ++
          message) .error
    (p1, { busy with innerHTML := originalText, disabled := false }, .fetch req :: e)

/-- `saveApiKey(provider)`, called from a click on `button`. -/
def saveApiKey (p : Page) (provider : Provider) (button : Button) (outcome : Outcome) :
    Page × Button × List Effect :=
  let key := trim (p.row provider).keyValue
  if !truthy key then
    let (p1, e) := showAlert p (lit "Digite uma chave de API para salvar") .warning
    (p1, button, e)
  else
    let originalText := button.innerHTML
    let busy : Button :=
      { innerHTML := lit "<i class=\"fas fa-spinner fa-spin\"></i> Salvando...", disabled := true }
    let req : Request :=
      { method := "POST", url := "/api-config/save"
        body := some (.providerKey provider.name key) }
    let (p1, e) :=
      match outcome with
      | .resolved result =>
        if result.success then
          let (p1, e) := showAlert p
            (lit "✅ Chave " ++ toUpperCase provider.name ++ lit " salva com sucesso!") .success
          (p1, e ++ [.setTimeout .loadCurrentKeys 1000])
        else
          showAlert p (lit "❌ Erro ao salvar " ++ toUpperCase provider.name ++ lit ": " ++
            optText result.error) .error
      | .rejected message =>
        showAlert p (lit "❌ Erro ao salvar " ++ toUpperCase provider.name ++ lit ": " ++
          message) .error
    (p1, { busy with innerHTML := originalText, disabled := false }, .fetch req :: e)

/-- Property write `keys[provider] = key` on the `keys` object. -/
def setKey (keys : List (Provider × JSString)) (provider : Provider) (key : JSString) :
    List (Provider × JSString) :=
  if keys.any (fun e => e.1 == provider) then
    keys.map fun e => if e.1 == provider then (provider, key) else e
  else keys ++ [(provider, key)]

/-- The `providers` array of `saveAllKeys`. -/
def providers : List Provider := [.openai, .anthropic, .google]

/-- The `for` loop of `saveAllKeys` that fills the `keys` object. -/
def collectKeys (p : Page) : List (Provider × JSString) :=
  providers.foldl
    (fun keys provider =>
      let key := trim (p.row provider).keyValue
      if truthy key then setKey keys provider key else keys)
    []

/-- `saveAllKeys()`, called from a click on `button`. -/
def saveAllKeys (p : Page) (button : Button) (outcome : Outcome) :
    Page × Button × List Effect :=
  let keys := collectKeys p
  if keys.length = 0 then
    let (p1, e) := showAlert p (lit "Nenhuma chave para salvar") .warning
    (p1, button, e)
  else
    let originalText := button.innerHTML
    let busy : Button :=
      { innerHTML := lit "<i class=\"fas fa-spinner fa-spin\"></i> Salvando todas..."
        disabled := true }
    let req : Request :=
      { method := "POST", url := "/api-config/save-all", body := some (.keys keys) }
    let (p1, e) :=
      match outcome with
      | .resolved result =>
        if result.success then
          let (p1, e) := showAlert p
            (lit "✅ " ++ (match result.saved_count with
              | some n => numText n
              | none => lit "undefined") ++ lit " chaves salvas com sucesso!") .success
          (p1, e ++ [.setTimeout .loadCurrentKeys 1000])
        else
          showAlert p (lit "❌ Erro ao salvar chaves: " ++ optText result.error) .error
      | .rejected message =>
        showAlert p (lit "❌ Erro ao salvar chaves: " ++ message) .error
    (p1, { busy with innerHTML := originalText, disabled := false }, .fetch req :: e)

/-- The requests among a list of effects. -/
def requests : List Effect → List Request
  | [] => []
  | .fetch r :: es => r :: requests es
  | .setTimeout _ _ :: es => requests es

end ApiConfigManager

/-! ## `home.js`: class `HomeChat`

Numbers supplied by the backend (cost, time, tokens) are kept in an arbitrary
number type `R` with the operations the script applies to them, so that
nothing below depends on how `+` and `/` round. -/

/-- The model shown by the indicator: `name` and, when present, `provider`. -/
structure Model where
  name : JSString
  provider : Option JSString
  deriving DecidableEq, Repr

/-- The `type` argument of `addMessage`. -/
inductive Role
  | user | assistant
  deriving DecidableEq, Repr

/-- The `metadata` argument of `addMessage`. -/
inductive Metadata (R : Type)
  | empty
  | stats (model reasoning : JSString) (cost time tokens : R)
  | isError
  deriving DecidableEq, Repr

/-- One message node appended to the chat list. -/
structure Message (R : Type) where
  type : Role
  content : JSString
  metadata : Metadata R
  deriving DecidableEq, Repr

/-- The document and local storage as `HomeChat` reads and writes them.  The
statistics fields hold the number last formatted into the element, `none`
while the script has not written it. -/
structure Dom (R : Type) where
  chatInput : JSString
  chatMessages : List (Message R)
  welcomeMessage : Bool
  typingIndicator : Bool
  sendBtnDisabled : Bool
  sendBtnHTML : String
  totalCost : Option R
  tokensUsed : Option R
  avgTime : Option R
  messageCount : Option Nat
  modelName : JSString
  modelIconClass : JSString
  modelIconHTML : JSString
  dataTheme : Option JSString
  storedTheme : Option JSString
  themeIconClass : String
  themeIconColor : String
  deriving DecidableEq, Repr

/-- The fields of a `HomeChat` instance together with the page it controls. -/
structure HomeChat (R : Type) where
  messageCount : Nat
  totalCost : R
  totalTime : R
  totalTokens : R
  currentModel : Option Model
  dom : Dom R
  deriving DecidableEq, Repr

/-- The parsed JSON of an OK answer of `POST /chat`. -/
structure ChatData (R : Type) where
  response : JSString
  model_used : JSString
  reasoning : JSString
  cost_estimate : R
  response_time : R
  tokens_used : R
  deriving DecidableEq, Repr

/-- How the request of `sendMessage` ends: `response.ok` with the parsed body,
a parsed body with `response.ok` false, or a thrown error. -/
inductive ChatOutcome (R : Type)
  | ok (data : ChatData R)
  | notOk (detail : Option JSString)
  | error (message : JSString)
  deriving DecidableEq, Repr

/-- The JSON body of `POST /chat` as `sendMessage` builds it. -/
structure ChatRequest where
  message : JSString
  user_id : JSString
  deriving DecidableEq, Repr

/-- What one `keypress` event on the chat input does: the page after the two
listeners ran up to their `await`, the requests they issued, and whether
`preventDefault()` was called, in which case the key inserts nothing. -/
structure KeypressResult (R : Type) where
  chat : HomeChat R
  requests : List ChatRequest
  defaultPrevented : Bool
  deriving DecidableEq, Repr

/-- The chat page together with the number of `/chat` requests that were issued
and have not ended yet. -/
structure Session (R : Type) where
  chat : HomeChat R
  inFlight : Nat
  deriving DecidableEq, Repr

/-- What can happen on the chat page: the user types, clicks the send button,
presses a key in the input, uses a quick-message action, or a request that is
in flight ends. -/
inductive Event (R : Type)
  | input (text : JSString)
  | click
  | keypress (key : JSString) (ctrlKey : Bool)
  | quick (message : JSString)
  | resolved (outcome : ChatOutcome R)
  deriving DecidableEq, Repr

namespace HomeChat

section
variable {R : Type}

/-- `getProviderFromModel(modelName)`. -/
def getProviderFromModel (modelName : JSString) : JSString :=
  if includes modelName (lit "gpt") then lit "openai"
  else if includes modelName (lit "claude") then lit "anthropic"
  else if includes modelName (lit "gemini") then lit "google"
  else lit "unknown"

/-- The lookup of `model.provider` in `iconMap`, with its fallback icon. -/
def iconClass (provider : Option JSString) : JSString :=
  if provider = some (lit "openai") then lit "fab fa-openai"
  else if provider = some (lit "anthropic") then lit "fas fa-robot"
  else if provider = some (lit "google") then lit "fab fa-google"
  else if provider = some (lit "none") then lit "fas fa-exclamation-triangle"
  else if provider = some (lit "error") then lit "fas fa-times-circle"
  else lit "fas fa-brain"

/-- `updateModelIndicator(model)`. -/
def updateModelIndicator (s : HomeChat R) (model : Model) : HomeChat R :=
  { s with dom := { s.dom with
      modelName := model.name
      modelIconClass := lit "model-icon " ++ optText model.provider
      modelIconHTML := lit "<i class=\"" ++ iconClass model.provider ++ lit "\"></i>" } }

/-- `updateMessageCount()`. -/
def updateMessageCount (s : HomeChat R) : HomeChat R :=
  { s with dom := { s.dom with messageCount := some s.messageCount } }

/-- `addMessage(type, content, metadata)`. -/
def addMessage (s : HomeChat R) (type : Role) (content : JSString) (metadata : Metadata R) :
    HomeChat R :=
  let s1 : HomeChat R := { s with dom := { s.dom with
      welcomeMessage := false
      chatMessages := s.dom.chatMessages ++ [⟨type, content, metadata⟩] } }
  if type = .user then
    updateMessageCount { s1 with messageCount := s1.messageCount + 1 }
  else s1

/-- `updateStats(cost, time, tokens)`. -/
def updateStats [Add R] [Div R] [NatCast R] (s : HomeChat R) (cost time tokens : R) :
    HomeChat R :=
  let s1 : HomeChat R := { s with
      totalCost := s.totalCost + cost
      totalTime := s.totalTime + time
      totalTokens := s.totalTokens + tokens }
  let s2 : HomeChat R := { s1 with dom := { s1.dom with
      totalCost := some s1.totalCost
      tokensUsed := some s1.totalTokens } }
  if s2.messageCount > 0 then
    { s2 with dom := { s2.dom with avgTime := some (s2.totalTime / (s2.messageCount : R)) } }
  else s2

/-- `showTypingIndicator()`. -/
def showTypingIndicator (s : HomeChat R) : HomeChat R :=
  { s with dom := { s.dom with typingIndicator := true } }

/-- `hideTypingIndicator()`. -/
def hideTypingIndicator (s : HomeChat R) : HomeChat R :=
  { s with dom := { s.dom with typingIndicator := false } }

/-- `sendMessage()` up to its `await`: the page while the request is in flight
and the request, or the unchanged page and no request when the trimmed input
is empty. -/
def sendMessageBegin (s : HomeChat R) : HomeChat R × Option ChatRequest :=
  let message := trim s.dom.chatInput
  if !truthy message then (s, none)
  else
    let s1 : HomeChat R := { s with dom := { s.dom with chatInput := [] } }
    let s2 := addMessage s1 .user message .empty
    let s3 := showTypingIndicator s2
    let s4 : HomeChat R := { s3 with dom := { s3.dom with
        sendBtnDisabled := true
        sendBtnHTML := "<i class=\"fas fa-spinner fa-spin\"></i>" } }
    (s4, some { message := message, user_id := lit "home_user" })

/-- `sendMessage()` from the point where its request has ended with `outcome`:
the `try` body, the `catch` and the `finally`. -/
def sendMessageEnd [Add R] [Div R] [NatCast R] (s : HomeChat R) (outcome : ChatOutcome R) :
    HomeChat R :=
  let s1 : HomeChat R :=
    match outcome with
    | .ok data =>
      let s1 := addMessage s .assistant data.response
        (.stats data.model_used data.reasoning data.cost_estimate data.response_time
          data.tokens_used)
      let s2 := updateStats s1 data.cost_estimate data.response_time data.tokens_used
      if some data.model_used ≠ s2.currentModel.map Model.name then
        let model : Model :=
          { name := data.model_used, provider := some (getProviderFromModel data.model_used) }
        updateModelIndicator { s2 with currentModel := some model } model
      else s2
    | .notOk detail =>
      addMessage s .assistant
        (lit "❌ Erro: " ++ (match detail with
          | some d => if truthy d then d else lit "Erro desconhecido"
          | none => lit "Erro desconhecido"))
        .isError
    | .error message =>
      addMessage s .assistant (lit "❌ Erro de conexão: " ++ message) .isError
  let s2 := hideTypingIndicator s1
  { s2 with dom := { s2.dom with
      sendBtnDisabled := false
      sendBtnHTML := "<i class=\"fas fa-paper-plane\"></i>" } }

/-- `sendMessage()` run to completion, its request ending with `outcome`. -/
def sendMessage [Add R] [Div R] [NatCast R] (s : HomeChat R) (outcome : ChatOutcome R) :
    HomeChat R :=
  match sendMessageBegin s with
  | (s1, none) => s1
  | (s1, some _) => sendMessageEnd s1 outcome

/-- The global `sendQuickMessage(message)`: the text is put in the input and
sent.  A chat turn of the user is this step. -/
def sendQuickMessage [Add R] [Div R] [NatCast R] (s : HomeChat R) (message : JSString)
    (outcome : ChatOutcome R) : HomeChat R :=
  sendMessage { s with dom := { s.dom with chatInput := message } } outcome

/-- A sequence of chat turns, each run to completion before the next. -/
def turns [Add R] [Div R] [NatCast R] (s : HomeChat R) :
    List (JSString × ChatOutcome R) → HomeChat R
  | [] => s
  | (message, outcome) :: rest => turns (sendQuickMessage s message outcome) rest

/-- `setTheme(theme)`. -/
def setTheme (s : HomeChat R) (theme : JSString) : HomeChat R :=
  { s with dom := { s.dom with
      dataTheme := some theme
      storedTheme := some theme
      themeIconClass := if theme = lit "dark" then "fas fa-moon" else "fas fa-sun"
      themeIconColor := if theme = lit "dark" then "#fbbf24" else "#f59e0b" } }

/-- The theme `initTheme` chooses: `savedTheme || systemTheme`. -/
def initialTheme (savedTheme : Option JSString) (prefersDark : Bool) : JSString :=
  let systemTheme := if prefersDark then lit "dark" else lit "light"
  match savedTheme with
  | some t => if truthy t then t else systemTheme
  | none => systemTheme

/-- `initTheme()`; `prefersDark` is the match of `(prefers-color-scheme: dark)`. -/
def initTheme (s : HomeChat R) (prefersDark : Bool) : HomeChat R :=
  setTheme s (initialTheme s.dom.storedTheme prefersDark)

/-- `toggleTheme()`. -/
def toggleTheme (s : HomeChat R) : HomeChat R :=
  let currentTheme := s.dom.dataTheme
  let newTheme := if currentTheme = some (lit "dark") then lit "light" else lit "dark"
  setTheme s newTheme

/-- The constructor: the field initialisers, then the synchronous part of
`init()` that changes the page, which is `initTheme()`. -/
def new [Zero R] (dom : Dom R) (prefersDark : Bool) : HomeChat R :=
  initTheme
    { messageCount := 0, totalCost := 0, totalTime := 0, totalTokens := 0
      currentModel := none, dom := dom }
    prefersDark

/-- A fresh `HomeChat`: the four counters hold the zeros the constructor
assigns.  Loading the model list and switching the theme keep it fresh. -/
def fresh [Zero R] (s : HomeChat R) : Prop :=
  s.messageCount = 0 ∧ s.totalCost = 0 ∧ s.totalTime = 0 ∧ s.totalTokens = 0

/-- The data of an OK answer. -/
def okData : ChatOutcome R → Option (ChatData R)
  | .ok data => some data
  | _ => none

/-- A chat turn sends a request when its message is not blank. -/
def sent (turn : JSString × ChatOutcome R) : Bool :=
  truthy (trim turn.1)

/-- A successful chat turn: a message that is not blank, answered OK. -/
def successful (turn : JSString × ChatOutcome R) : Bool :=
  sent turn && (okData turn.2).isSome

/-- A failed chat turn: a message that is not blank, answered with a non-OK
response or ended by a transport error. -/
def failed (turn : JSString × ChatOutcome R) : Bool :=
  sent turn && (okData turn.2).isNone

/-- Chat turns made of messages and the OK answers they receive. -/
def okTurns (ts : List (JSString × ChatData R)) : List (JSString × ChatOutcome R) :=
  ts.map fun t => (t.1, .ok t.2)

/-- The answers of the successful turns of a sequence, in order. -/
def successfulData (ts : List (JSString × ChatOutcome R)) : List (ChatData R) :=
  ts.filterMap fun t => if sent t then okData t.2 else none

/-- The two `keypress` listeners that `setupEventListeners` puts on the chat
input, run in the order they were added, each up to the `await` of the
`sendMessage()` it calls. -/
def chatInputKeypress (s : HomeChat R) (key : JSString) (ctrlKey : Bool) : KeypressResult R :=
  let r1 : KeypressResult R :=
    if key = lit "Enter" ∧ ctrlKey = true then
      { chat := (sendMessageBegin s).1
        requests := (sendMessageBegin s).2.toList
        defaultPrevented := true }
    else { chat := s, requests := [], defaultPrevented := false }
  if key = lit "Enter" ∧ ctrlKey = false then
    { chat := (sendMessageBegin r1.chat).1
      requests := r1.requests ++ (sendMessageBegin r1.chat).2.toList
      defaultPrevented := true }
  else r1

/-- A click on the send button: the `click` listener calls `sendMessage()`; a
disabled button dispatches no click. -/
def sendBtnClick (s : HomeChat R) : HomeChat R × Option ChatRequest :=
  if s.dom.sendBtnDisabled then (s, none) else sendMessageBegin s

/-- The global `sendQuickMessage(message)` up to the `await` of the
`sendMessage()` it calls. -/
def sendQuickMessageBegin (s : HomeChat R) (message : JSString) :
    HomeChat R × Option ChatRequest :=
  sendMessageBegin { s with dom := { s.dom with chatInput := message } }

/-- One event on the chat page.  A request that ends runs the rest of its
`sendMessage()`; which of several requests in flight ends first makes no
difference to that code. -/
def step [Add R] [Div R] [NatCast R] (σ : Session R) : Event R → Session R
  | .input text =>
    { σ with chat := { σ.chat with dom := { σ.chat.dom with chatInput := text } } }
  | .click =>
    { chat := (sendBtnClick σ.chat).1
      inFlight := σ.inFlight + (sendBtnClick σ.chat).2.toList.length }
  | .keypress key ctrlKey =>
    { chat := (chatInputKeypress σ.chat key ctrlKey).chat
      inFlight := σ.inFlight + (chatInputKeypress σ.chat key ctrlKey).requests.length }
  | .quick message =>
    { chat := (sendQuickMessageBegin σ.chat message).1
      inFlight := σ.inFlight + (sendQuickMessageBegin σ.chat message).2.toList.length }
  | .resolved outcome =>
    if σ.inFlight = 0 then σ
    else { chat := sendMessageEnd σ.chat outcome, inFlight := σ.inFlight - 1 }

/-- A sequence of events, in order. -/
def run [Add R] [Div R] [NatCast R] (σ : Session R) : List (Event R) → Session R
  | [] => σ
  | e :: es => run (step σ e) es

/-- The events that are typing, a click on the send button, or the end of a
request: neither the Enter key nor a quick-message action. -/
def byButton : Event R → Bool
  | .input _ => true
  | .click => true
  | .keypress _ _ => false
  | .quick _ => false
  | .resolved _ => true

/-- At most one request is in flight, and the send button is disabled while one
is. -/
def serialized (σ : Session R) : Prop :=
  σ.inFlight = 0 ∨ (σ.inFlight = 1 ∧ σ.chat.dom.sendBtnDisabled = true)

end

end HomeChat

/-! ## `dashboard.js`: class `RouterDashboard`

Times are milliseconds since the epoch.  The random draws of `Math.random()`
and the clock reading are arguments. -/

namespace RouterDashboard

/-- The fields of the `/stats` response that the activity feed reads; a field
is `none` when the response lacks it. -/
structure Stats where
  total_requests : Option ℚ
  total_cost : Option ℚ
  most_used_model : Option JSString
  deriving DecidableEq, Repr

/-- The `type` of an activity entry. -/
inductive ActivityType
  | success | error | info
  deriving DecidableEq, Repr

/-- One entry of the activity feed. -/
structure Activity where
  type : ActivityType
  title : JSString
  description : JSString
  time : Int
  deriving DecidableEq, Repr

/-- The time value of `new Date(x)`: `x` truncated towards zero. -/
def dateOf (x : ℚ) : Int := if 0 ≤ x then ⌊x⌋ else ⌈x⌉

/-- Decimal digits of `n`, padded on the left with zeros to `width` digits. -/
def padDigits (n width : Nat) : JSString :=
  List.replicate (width - (numText n).length) 0x30 ++ numText n

/-- `x.toFixed(digits)` for `|x| < 10^21`: the nearest decimal with `digits`
fraction digits, ties rounded away from zero, the sign of a negative `x` kept. -/
def toFixed (x : ℚ) (digits : Nat) : JSString :=
  let n : Nat := ⌊|x| * 10 ^ digits + 1 / 2⌋.toNat
  let body := numText (n / 10 ^ digits) ++
    (if digits = 0 then [] else lit "." ++ padDigits (n % 10 ^ digits) digits)
  if x < 0 then lit "-" ++ body else body

/-- `array.slice(0, stop)` for `stop ≥ 0`. -/
def slice0 {α : Type} (xs : List α) (stop : Nat) : List α := xs.take stop

/-- The comparison `x > 0` on a field that may be missing. -/
def positive (x : Option ℚ) : Bool :=
  match x with
  | some v => decide (0 < v)
  | none => false

/-- `generateMockActivity(stats)`; `now` is the clock reading and `r1`, `r2` are
the values the two calls of `Math.random()` return. -/
def generateMockActivity (stats : Stats) (now : Int) (r1 r2 : ℚ) : List Activity :=
  let activities : List Activity := []
  let activities :=
    if positive stats.total_requests then
      activities ++ [{
        type := .success
        title := lit "Request processado"
        description := lit "Modelo: " ++ (match stats.most_used_model with
          | some m => if truthy m then m else lit "N/A"
          | none => lit "N/A")
        time := dateOf ((now : ℚ) - r1 * 300000) }]
    else activities
  let activities :=
    if positive stats.total_cost then
      activities ++ [{
        type := .info
        title := lit "Custo atualizado"
        description := lit "Total: $" ++ toFixed (stats.total_cost.getD 0) 4
        time := dateOf ((now : ℚ) - r2 * 600000) }]
    else activities
  slice0 activities 5

/-- `getActivityIcon(type)`. -/
def getActivityIcon : ActivityType → JSString
  | .success => lit "check"
  | .error => lit "times"
  | .info => lit "info-circle"

/-- `getTimeAgo(date)`; `now` is the clock reading. -/
def getTimeAgo (date now : Int) : JSString :=
  let diff := now - date
  let minutes := diff / 60000
  if minutes < 1 then lit "Agora mesmo"
  else if minutes < 60 then numText minutes.toNat ++ lit "min atrás"
  else
    let hours := minutes / 60
    if hours < 24 then numText hours.toNat ++ lit "h atrás"
    else numText (hours / 24).toNat ++ lit "d atrás"

/-- One rendered entry of the activity list. -/
structure ActivityItem where
  iconClass : JSString
  icon : JSString
  title : JSString
  text : JSString
  deriving DecidableEq, Repr

/-- The content of the `activityList` element. -/
inductive ActivityList
  | placeholder
  | items (entries : List ActivityItem)
  deriving DecidableEq, Repr

/-- The class name fragment of an activity type. -/
def ActivityType.text : ActivityType → JSString
  | .success => lit "success"
  | .error => lit "error"
  | .info => lit "info"

/-- `displayActivity(activities)`; `now` is the clock reading of `getTimeAgo`. -/
def displayActivity (activities : List Activity) (now : Int) : ActivityList :=
  if activities.length = 0 then .placeholder
  else .items (activities.map fun activity =>
    { iconClass := lit "activity-icon " ++ activity.type.text
      icon := getActivityIcon activity.type
      title := activity.title
      text := activity.description ++ lit " • " ++ getTimeAgo activity.time now })

/-- The number of entries the activity list shows. -/
def ActivityList.shown : ActivityList → Nat
  | .placeholder => 0
  | .items entries => entries.length

/-- The parsed body of `/stats`: the fields the activity feed reads and the two
that only `updateStats` reads; `model_usage` lists the members of that object
in the order of the body. -/
structure StatsResponse extends Stats where
  avg_response_time : Option ℚ
  model_usage : Option (List (JSString × ℚ))
  deriving DecidableEq, Repr

/-- One model of the `/models` response. -/
structure ModelInfo where
  available : Bool
  cost_per_1k_tokens : ℚ
  speed : JSString
  deriving DecidableEq, Repr

/-- The parsed body of `/models`: the members of its `models` object in the
order of the body, `none` when the body has no `models`. -/
structure ModelsResponse where
  models : Option (List (JSString × ModelInfo))
  deriving DecidableEq, Repr

/-- How `await fetch(url)` followed by `await response.json()` ends for a method
of the dashboard: with a thrown error (the request failed, or the body is not
JSON), with a parsed body on which the property reads of the method throw
(such as `null`), or with the parsed object. -/
inductive Fetched (α : Type)
  | rejected (message : JSString)
  | unreadable
  | object (value : α)
  deriving DecidableEq, Repr

/-- One card of the models grid. -/
structure ModelCard where
  className : JSString
  name : JSString
  icon : JSString
  status : JSString
  cost : ℚ
  speed : JSString
  deriving DecidableEq, Repr

/-- The content of the `testResult` element. -/
inductive TestResult
  | untouched
  | success (model_used reasoning cost time : JSString) (tokens : ℚ) (response : JSString)
  | failure (detail : JSString)
  | connection (message : JSString)
  deriving DecidableEq, Repr

/-- The JSON body `testAPI` posts to `/chat`. -/
structure Payload where
  message : JSString
  force_model : Option JSString
  deriving DecidableEq, Repr

/-- A call of `fetch`. -/
structure Fetch where
  method : String
  url : String
  body : Option Payload
  deriving DecidableEq, Repr

/-- The fields of a `RouterDashboard` instance and the page it controls.  The
last three fields record the calls of `alert`, of `console.error` and of
`fetch`, in order. -/
structure Page where
  updateInterval : Option Nat
  totalRequests : Option ℚ
  totalCost : Option JSString
  avgResponseTime : Option JSString
  chartLabels : List JSString
  chartData : List ℚ
  modelsGrid : List ModelCard
  activeModels : Option Nat
  activityList : ActivityList
  statusDotOnline : Bool
  statusText : JSString
  testMessage : JSString
  forceModel : JSString
  testButtonDisabled : Bool
  testButtonHTML : JSString
  testResult : TestResult
  testResultShown : Bool
  alerts : List JSString
  console : List JSString
  fetches : List Fetch
  deriving DecidableEq, Repr

/-- The clock readings and random draws of one `updateActivity()`: those of
`generateMockActivity` and the clock reading of `getTimeAgo`. -/
structure Draws where
  now : Int
  r1 : ℚ
  r2 : ℚ
  shownAt : Int
  deriving DecidableEq, Repr

/-- What the backend and the browser supply to one round of `updateStats()`,
`updateModels()` and `updateActivity()`. -/
structure Round where
  stats : Fetched StatsResponse
  models : Fetched ModelsResponse
  activity : Fetched StatsResponse
  draws : Draws
  deriving DecidableEq, Repr

/-- An integer interpolated into a template literal. -/
def intText (i : Int) : JSString :=
  if i < 0 then lit "-" ++ numText i.natAbs else numText i.toNat

/-- `Math.round(x)`: the nearest integer, a tie going up. -/
def round (x : ℚ) : Int := ⌊x + 1 / 2⌋

/-- The call `fetch(url)` with no options. -/
def get (url : String) : Fetch := { method := "GET", url := url, body := none }

/-- `updateModelUsageChart(modelUsage)`; the argument lists the members of the
object, `Object.keys` and `Object.values` follow the order of `Object.entries`. -/
def updateModelUsageChart (d : Page) (modelUsage : List (JSString × ℚ)) : Page :=
  { d with
    chartLabels := (objectEntries modelUsage).map Prod.fst
    chartData := (objectEntries modelUsage).map Prod.snd }

/-- The `try` block of `updateStats()`: the page as the block left it and the
error it threw, if any. -/
def updateStatsTry (d : Page) (outcome : Fetched StatsResponse) : Page × Option JSString :=
  let d1 : Page := { d with fetches := d.fetches ++ [get "/stats"] }
  match outcome with
  | .rejected message => (d1, some message)
  | .unreadable => (d1, some (lit "TypeError"))
  | .object data =>
    let d2 : Page := { d1 with
      totalRequests := some (data.total_requests.getD 0)
      totalCost := some (lit "$" ++ toFixed (data.total_cost.getD 0) 4)
      avgResponseTime :=
        some (intText (round (data.avg_response_time.getD 0 * 1000)) ++ lit "ms") }
    (updateModelUsageChart d2 (parseObject (data.model_usage.getD [])), none)

/-- `updateStats()`: the page when the returned promise settles, and the error
it rejects with, if any. -/
def updateStats (d : Page) (outcome : Fetched StatsResponse) : Page × Option JSString :=
  match updateStatsTry d outcome with
  | (d1, none) => (d1, none)
  | (d1, some _) =>
    ({ d1 with console := d1.console ++ [lit "Erro ao atualizar estatísticas:"] }, none)

/-- The card `updateModels()` builds for one model. -/
def modelCard (modelName : JSString) (modelData : ModelInfo) : ModelCard :=
  let isAvailable := modelData.available
  { className := lit "model-card " ++ (if isAvailable then lit "available" else lit "unavailable")
    name := modelName
    icon := lit "fas fa-" ++ (if isAvailable then lit "check-circle" else lit "times-circle")
    status := if isAvailable then lit "Disponível" else lit "Indisponível"
    cost := modelData.cost_per_1k_tokens
    speed := modelData.speed }

/-- The `for` loop of `updateModels()` over `Object.entries(data.models)`, on the
grid and on `activeCount`. -/
def updateModelsLoop (grid : List ModelCard) (activeCount : Nat) :
    List (JSString × ModelInfo) → List ModelCard × Nat
  | [] => (grid, activeCount)
  | (modelName, modelData) :: rest =>
    updateModelsLoop (grid ++ [modelCard modelName modelData])
      (if modelData.available then activeCount + 1 else activeCount) rest

/-- The `try` block of `updateModels()`.  The grid is emptied before
`data.models` is read; `Object.entries` throws when the body has no `models`. -/
def updateModelsTry (d : Page) (outcome : Fetched ModelsResponse) : Page × Option JSString :=
  let d1 : Page := { d with fetches := d.fetches ++ [get "/models"] }
  match outcome with
  | .rejected message => (d1, some message)
  | .unreadable => ({ d1 with modelsGrid := [] }, some (lit "TypeError"))
  | .object data =>
    let d2 : Page := { d1 with modelsGrid := [] }
    match data.models with
    | none => (d2, some (lit "TypeError"))
    | some body =>
      let (grid, activeCount) :=
        updateModelsLoop d2.modelsGrid 0 (objectEntries (parseObject body))
      ({ d2 with modelsGrid := grid, activeModels := some activeCount }, none)

/-- `updateModels()`. -/
def updateModels (d : Page) (outcome : Fetched ModelsResponse) : Page × Option JSString :=
  match updateModelsTry d outcome with
  | (d1, none) => (d1, none)
  | (d1, some _) =>
    ({ d1 with console := d1.console ++ [lit "Erro ao atualizar modelos:"] }, none)

/-- The `try` block of `updateActivity()`. -/
def updateActivityTry (d : Page) (outcome : Fetched StatsResponse) (draws : Draws) :
    Page × Option JSString :=
  let d1 : Page := { d with fetches := d.fetches ++ [get "/stats"] }
  match outcome with
  | .rejected message => (d1, some message)
  | .unreadable => (d1, some (lit "TypeError"))
  | .object data =>
    let activities := generateMockActivity data.toStats draws.now draws.r1 draws.r2
    ({ d1 with activityList := displayActivity activities draws.shownAt }, none)

/-- `updateActivity()`. -/
def updateActivity (d : Page) (outcome : Fetched StatsResponse) (draws : Draws) :
    Page × Option JSString :=
  match updateActivityTry d outcome draws with
  | (d1, none) => (d1, none)
  | (d1, some _) =>
    ({ d1 with console := d1.console ++ [lit "Erro ao atualizar atividade:"] }, none)

/-- `setStatus(status)`. -/
def setStatus (d : Page) (status : JSString) : Page :=
  if status = lit "online" then
    { d with statusDotOnline := true, statusText := lit "Online" }
  else
    { d with statusDotOnline := false, statusText := lit "Offline" }

/-- `loadInitialData()`: the three awaited calls in order; an await of a
rejected promise goes to the `catch`. -/
def loadInitialData (d : Page) (r : Round) : Page :=
  match updateStats d r.stats with
  | (d1, some _) =>
    setStatus { d1 with console := d1.console ++ [lit "Erro ao carregar dados iniciais:"] }
      (lit "offline")
  | (d1, none) =>
    match updateModels d1 r.models with
    | (d2, some _) =>
      setStatus { d2 with console := d2.console ++ [lit "Erro ao carregar dados iniciais:"] }
        (lit "offline")
    | (d2, none) =>
      match updateActivity d2 r.activity r.draws with
      | (d3, some _) =>
        setStatus { d3 with console := d3.console ++ [lit "Erro ao carregar dados iniciais:"] }
          (lit "offline")
      | (d3, none) => setStatus d3 (lit "online")

/-- `startRealTimeUpdates()`: an interval timer of 5000 ms is set. -/
def startRealTimeUpdates (d : Page) : Page :=
  { d with updateInterval := some 5000 }

/-- The callback of the interval timer: the three calls, none awaited.  They
write to different parts of the page, so they are applied one after the other. -/
def tick (d : Page) (r : Round) : Page :=
  (updateActivity (updateModels (updateStats d r.stats).1 r.models).1 r.activity r.draws).1

/-- `setupCharts()`: both charts start with no labels and no data. -/
def setupCharts (d : Page) : Page :=
  { d with chartLabels := [], chartData := [] }

/-- `init()`, run by the constructor when the page is mounted. -/
def init (d : Page) (first : Round) : Page :=
  loadInitialData (startRealTimeUpdates (setupCharts d)) first

/-- The number of times an interval timer of period `period` has fired
`elapsed` ms after it was set, every fire being on time: it fires at `period`,
at `2 * period`, and so on. -/
def firesWithin (period elapsed : Nat) : Nat := elapsed / period

/-- A run of timer fires, in order. -/
def ticks (d : Page) : List Round → Page
  | [] => d
  | r :: rs => ticks (tick d r) rs

/-- The page `elapsed` ms after it was mounted; `later n` is what the backend
supplies to the fire number `n` of the timer. -/
def mountedFor (d : Page) (first : Round) (later : Nat → Round) (elapsed : Nat) : Page :=
  match (init d first).updateInterval with
  | none => init d first
  | some period => ticks (init d first) ((List.range (firesWithin period elapsed)).map later)

/-- The number of stats/models fetch cycles so far: each cycle fetches `/models`
once. -/
def fetchCycles (d : Page) : Nat :=
  (d.fetches.filter fun f => f.url == "/models").length

/-- `testAPI()`, the request ending with `outcome`; `statsOutcome` is the end of
the `updateStats()` that the `finally` block starts. -/
def testAPI (d : Page) (outcome : ChatOutcome ℚ) (statsOutcome : Fetched StatsResponse) :
    Page :=
  let message := trim d.testMessage
  let forceModel := d.forceModel
  if !truthy message then
    { d with alerts := d.alerts ++ [lit "Digite uma mensagem para testar!"] }
  else
    let d1 : Page := { d with
      testButtonDisabled := true
      testButtonHTML := lit "<i class=\"fas fa-spinner fa-spin\"></i> Testando..." }
    let payload : Payload :=
      { message := message, force_model := if truthy forceModel then some forceModel else none }
    let d2 : Page := { d1 with
      fetches := d1.fetches ++ [{ method := "POST", url := "/chat", body := some payload }] }
    let d3 : Page :=
      match outcome with
      | .ok data =>
        let shown := substring data.response 0 200 ++
          (if data.response.length > 200 then lit "..." else lit "")
        { d2 with
          testResult := .success data.model_used data.reasoning (toFixed data.cost_estimate 4)
            (toFixed data.response_time 2) data.tokens_used shown }
      | .notOk detail =>
        let shown := match detail with
          | some t => if truthy t then t else lit "Erro desconhecido"
          | none => lit "Erro desconhecido"
        { d2 with testResult := .failure shown }
      | .error message => { d2 with testResult := .connection message }
    let d4 : Page := { d3 with
      testButtonDisabled := false
      testButtonHTML := lit "<i class=\"fas fa-paper-plane\"></i> Testar"
      testResultShown := true }
    (updateStats d4 statsOutcome).1

/-- Modelled from the spec: the markup of the dashboard page, which gives the
test button its label before any test has run, is not among the sources.  The
spec has every control path put the button back, so the label of the idle
button is taken to be the one `testAPI` writes in its `finally` block. -/
def idleTestLabel : JSString := lit "<i class=\"fas fa-paper-plane\"></i> Testar"

end RouterDashboard

/-! ## Concrete pages and turns used in the examples -/

/-- A configuration page on which the script has written nothing yet. -/
def ApiConfigManager.blankPage : ApiConfigManager.Page :=
  { openai := ⟨"", "", [], false⟩, anthropic := ⟨"", "", [], false⟩
    google := ⟨"", "", [], false⟩, statusDotClass := "", statusText := [], alert := none }

/-- The blank page after the user typed a key in the OpenAI field. -/
def ApiConfigManager.typedPage : ApiConfigManager.Page :=
  { blankPage with openai := { blankPage.openai with keyValue := lit "sk-1234567890abcdef" } }

/-- The page with a key typed, surrounded by blanks, in two of the fields. -/
def ApiConfigManager.twoKeysPage : ApiConfigManager.Page :=
  { blankPage with
    openai := { blankPage.openai with keyValue := lit " sk-abc " }
    google := { blankPage.google with keyValue := lit "AIza-xyz" } }

/-- A status object with two of the three providers available. -/
def ApiConfigManager.twoOfThree : List (JSString × ApiConfigManager.ApiStatus) :=
  [(lit "openai", { available := true, key := some (lit "sk-12345...cdef") }),
    (lit "anthropic", { available := false, key := none }),
    (lit "google", { available := true, key := none })]

/-- A status object with none of the three providers available. -/
def ApiConfigManager.noneOfThree : List (JSString × ApiConfigManager.ApiStatus) :=
  [(lit "openai", { available := false, key := none }),
    (lit "anthropic", { available := false, key := none }),
    (lit "google", { available := false, key := none })]

/-- A button with a label. -/
def ApiConfigManager.someButton : ApiConfigManager.Button :=
  { innerHTML := lit "Salvar", disabled := false }

/-- A backend answer reporting success. -/
def ApiConfigManager.success : ApiConfigManager.Outcome :=
  .resolved { success := true, error := none, saved_count := some 1 }

/-- A chat page on which the script has written nothing yet. -/
def HomeChat.blankDom (R : Type) : Dom R :=
  { chatInput := [], chatMessages := [], welcomeMessage := true, typingIndicator := false
    sendBtnDisabled := false, sendBtnHTML := "", totalCost := none, tokensUsed := none
    avgTime := none, messageCount := none, modelName := [], modelIconClass := []
    modelIconHTML := [], dataTheme := none, storedTheme := none
    themeIconClass := "", themeIconColor := "" }

/-- A first message with its OK answer: cost 0.001, time 0.77, 30 tokens. -/
def HomeChat.firstTurn : JSString × ChatData ℚ :=
  (lit "oi", { response := lit "Olá!", model_used := lit "claude-3", reasoning := lit "r"
               cost_estimate := 1 / 1000, response_time := 77 / 100, tokens_used := 30 })

/-- The answer of the worked example: cost 0.002, time 1.23, 50 tokens. -/
def HomeChat.secondTurn : JSString × ChatData ℚ :=
  (lit "tudo bem?", { response := lit "Sim", model_used := lit "gpt-4", reasoning := lit "r"
                      cost_estimate := 2 / 1000, response_time := 123 / 100
                      tokens_used := 50 })

/-- A turn ended by a transport error, then a successful turn. -/
def HomeChat.mixedTurns : List (JSString × ChatOutcome ℚ) :=
  [(lit "oi", .error (lit "Failed to fetch")), (firstTurn.1, .ok firstTurn.2)]

/-- A chat page whose stored theme preference is the empty string. -/
def HomeChat.emptyStoredTheme : HomeChat ℚ :=
  { messageCount := 0, totalCost := 0, totalTime := 0, totalTokens := 0, currentModel := none
    dom := { blankDom ℚ with storedTheme := some (lit "") } }

/-- A chat page whose stored theme preference is `light`. -/
def HomeChat.lightStoredTheme : HomeChat ℚ :=
  { messageCount := 0, totalCost := 0, totalTime := 0, totalTokens := 0, currentModel := none
    dom := { blankDom ℚ with storedTheme := some (lit "light") } }

/-- A fresh chat page on which the user typed a message. -/
def HomeChat.typedChat : HomeChat ℚ :=
  { messageCount := 0, totalCost := 0, totalTime := 0, totalTokens := 0, currentModel := none
    dom := { blankDom ℚ with chatInput := lit "oi" } }

/-- The user types a message and presses Enter, then types another message and
presses Enter again before any answer has arrived. -/
def HomeChat.twoEnters : List (Event ℚ) :=
  [.input (lit "oi"), .keypress (lit "Enter") false,
    .input (lit "tudo bem?"), .keypress (lit "Enter") false]

/-- The user types a message and clicks the send button, then types another
message and clicks again before the answer arrives, then the answer arrives. -/
def HomeChat.twoClicks : List (Event ℚ) :=
  [.input (lit "oi"), .click, .input (lit "tudo bem?"), .click,
    .resolved (.error (lit "Failed to fetch"))]

/-- A dashboard page on which the script has written nothing yet. -/
def RouterDashboard.blankPage : RouterDashboard.Page :=
  { updateInterval := none, totalRequests := none, totalCost := none, avgResponseTime := none
    chartLabels := [], chartData := [], modelsGrid := [], activeModels := none
    activityList := .placeholder, statusDotOnline := false, statusText := []
    testMessage := [], forceModel := [], testButtonDisabled := false, testButtonHTML := []
    testResult := .untouched, testResultShown := false, alerts := [], console := []
    fetches := [] }

/-- A dashboard page with the idle test button and a message typed in the test
field. -/
def RouterDashboard.testPage : RouterDashboard.Page :=
  { blankPage with testMessage := lit "oi", testButtonHTML := idleTestLabel }

/-- A round in which every request fails. -/
def RouterDashboard.failingRound : RouterDashboard.Round :=
  { stats := .rejected (lit "Failed to fetch"), models := .unreadable
    activity := .rejected (lit "Failed to fetch")
    draws := { now := 1000000, r1 := 0, r2 := 0, shownAt := 1000000 } }

/-- An available model. -/
def RouterDashboard.upModel : RouterDashboard.ModelInfo :=
  { available := true, cost_per_1k_tokens := 0, speed := lit "fast" }

/-- An unavailable model. -/
def RouterDashboard.downModel : RouterDashboard.ModelInfo :=
  { available := false, cost_per_1k_tokens := 0, speed := lit "slow" }

/-- The members of a `models` object whose keys are `b`, `10` and `9`, in that
order in the body. -/
def RouterDashboard.keyedModels : List (JSString × RouterDashboard.ModelInfo) :=
  [(lit "b", upModel), (lit "10", downModel), (lit "9", upModel)]

/-- The members of a `models` object with two model names as keys. -/
def RouterDashboard.namedModels : List (JSString × RouterDashboard.ModelInfo) :=
  [(lit "gpt-4", upModel), (lit "claude-3", downModel)]

/-- A dashboard page that shows one model card and an active count of 3. -/
def RouterDashboard.shownPage : RouterDashboard.Page :=
  { blankPage with modelsGrid := [modelCard (lit "gpt-4") upModel], activeModels := some 3 }

/-- A stats snapshot with one request and a positive cost. -/
def RouterDashboard.someStats : RouterDashboard.Stats :=
  { total_requests := some 1, total_cost := some 1, most_used_model := some (lit "gpt-4") }

/-- The two turns in order. -/
def HomeChat.twoTurns : List (JSString × ChatData ℚ) := [firstTurn, secondTurn]

end RouterLLM

/-! # Theorems -/

namespace RouterLLM

/-! ## Strings -/

theorem truthy_iff (s : JSString) : truthy s = true ↔ s ≠ [] := by
  cases s <;> simp [truthy]

theorem substring_zero (s : JSString) (n : Nat) (h : n ≤ s.length) :
    substring s 0 n = s.take n := by
  simp [substring, clampIndex, h]

theorem substringFrom_eq_drop (s : JSString) (n : Nat) (h : n ≤ s.length) :
    substringFrom s n = s.drop n := by
  simp only [substringFrom, substring, clampIndex, Int.toNat_ofNat, min_self]
  rw [min_eq_left h, min_eq_left h, max_eq_right h]
  apply List.take_of_length_le
  simp

theorem includes_iff (s sub : JSString) : includes s sub = true ↔ sub <:+: s := by
  induction s with
  | nil => cases sub <;> simp [includes]
  | cons c s ih =>
    rw [includes, Bool.or_eq_true, ih, List.isPrefixOf_iff_prefix, List.infix_cons_iff]

theorem starts_with_head {a b : JSString} {c : Nat} (h : a <+: b) (ha : a.head? = some c) :
    b.head? = some c := by
  obtain ⟨t, rfl⟩ := h
  cases a with
  | nil => simp at ha
  | cons x xs => simpa using ha

/-! ## `ApiConfigManager` -/

namespace ApiConfigManager

/-- C1: for a key of at least 10 code units `maskKey` returns its first 8 code
units, then three dots, then its last 4 code units; a shorter key is returned
unchanged. -/
theorem maskKey_first8_dots_last4 (key : JSString) :
    (10 ≤ key.length →
      maskKey key = key.take 8 ++ lit "..." ++ key.drop (key.length - 4) ∧
      (key.take 8).length = 8 ∧ (key.drop (key.length - 4)).length = 4) ∧
    (key.length < 10 → maskKey key = key) := by
  constructor
  · intro h
    have hne : truthy key = true := by
      cases key with
      | nil => simp at h
      | cons a t => rfl
    have h4 : ((key.length : Int) - 4) = ((key.length - 4 : Nat) : Int) := by omega
    refine ⟨?_, ?_, ?_⟩
    · unfold maskKey
      rw [if_neg (by simp [hne]; omega), h4,
        substringFrom_eq_drop key (key.length - 4) (by omega)]
      have := substring_zero key 8 (by omega)
      simp only [Nat.cast_ofNat, Int.Nat.cast_ofNat_Int] at this ⊢
      rw [← this]
    · simp; omega
    · simp; omega
  · intro h
    simp [maskKey, h]

/-- C1, at a key of 19 code units and at a key of 5. -/
theorem maskKey_first8_dots_last4_witness :
    maskKey (lit "sk-1234567890abcdef") = lit "sk-12345" ++ lit "..." ++ lit "cdef" ∧
    maskKey (lit "short") = lit "short" :=
  ⟨((maskKey_first8_dots_last4 (lit "sk-1234567890abcdef")).1 (by decide)).1,
    (maskKey_first8_dots_last4 (lit "short")).2 (by decide)⟩

theorem connectedCount_eq (data : List (JSString × ApiStatus)) :
    connectedCount data = data.countP fun e => e.2.available := by
  simp [connectedCount, List.countP_eq_length_filter, List.filter_map, Function.comp_def]

theorem totalCount_eq (data : List (JSString × ApiStatus)) :
    totalCount data = data.length := by
  simp [totalCount]

/-- The three labels by their first words, on any mapping: all-connected iff
`k = n`, partly connected iff `0 < k < n`, none iff `k = 0` and `n` is not
zero. -/
theorem updateOverallStatus_starts (p : Page) (data : List (JSString × ApiStatus)) :
    (lit "Todas as APIs conectadas" <+: (updateOverallStatus p data).statusText ↔
      data.countP (fun e => e.2.available) = data.length) ∧
    (lit "Parcialmente conectado" <+: (updateOverallStatus p data).statusText ↔
      0 < data.countP (fun e => e.2.available) ∧
      data.countP (fun e => e.2.available) < data.length) ∧
    ((updateOverallStatus p data).statusText = lit "Nenhuma API conectada" ↔
      data.countP (fun e => e.2.available) = 0 ∧ data.length ≠ 0) := by
  generalize hk : data.countP (fun e => e.2.available) = k
  generalize hn : data.length = n
  generalize htext : (updateOverallStatus p data).statusText = text
  have hk : connectedCount data = k := (connectedCount_eq data).trans hk
  have hkn : k ≤ n := by
    rw [← hk, ← hn, connectedCount_eq]; exact List.countP_le_length _
  have hn : totalCount data = n := (totalCount_eq data).trans hn
  have hT : (lit "Todas as APIs conectadas").head? = some 84 := rfl
  have hP : (lit "Parcialmente conectado").head? = some 80 := rfl
  have hN : (lit "Nenhuma API conectada").head? = some 78 := rfl
  by_cases h1 : k = n
  · have ht : text = lit "Todas as APIs conectadas" ++ (lit " (" ++ numText k ++
        lit "/" ++ numText n ++ lit ")") := by
      rw [← htext]
      simp only [updateOverallStatus, hk, hn, if_pos h1]
      rfl
    refine ⟨⟨fun _ => h1, fun _ => ht ▸ List.prefix_append _ _⟩, ⟨fun h => ?_, fun h => ?_⟩,
      ⟨fun h => ?_, fun h => ?_⟩⟩
    · have := starts_with_head h hP
      rw [ht] at this
      simp [lit, utf16] at this
    · omega
    · have hp : lit "Nenhuma API conectada" <+: text := by simp [h]
      have := starts_with_head hp hN
      rw [ht] at this
      simp [lit, utf16] at this
    · omega
  · by_cases h2 : 0 < k
    · have ht : text = lit "Parcialmente conectado" ++ (lit " (" ++ numText k ++
          lit "/" ++ numText n ++ lit ")") := by
        rw [← htext]
        simp only [updateOverallStatus, hk, hn, if_neg h1, gt_iff_lt, if_pos h2]
        rfl
      refine ⟨⟨fun h => ?_, fun h => absurd h h1⟩,
        ⟨fun _ => ⟨h2, by omega⟩, fun _ => ht ▸ List.prefix_append _ _⟩,
        ⟨fun h => ?_, fun h => ?_⟩⟩
      · have := starts_with_head h hT
        rw [ht] at this
        simp [lit, utf16] at this
      · have hp : lit "Nenhuma API conectada" <+: text := by simp [h]
        have := starts_with_head hp hN
        rw [ht] at this
        simp [lit, utf16] at this
      · omega
    · have ht : text = lit "Nenhuma API conectada" := by
        rw [← htext]
        simp only [updateOverallStatus, hk, hn, if_neg h1, gt_iff_lt, if_neg h2]
      refine ⟨⟨fun h => ?_, fun h => absurd h h1⟩, ⟨fun h => ?_, fun h => ?_⟩,
        ⟨fun _ => ⟨by omega, by omega⟩, fun _ => ht⟩⟩
      · have := starts_with_head h hT
        rw [ht] at this
        simp [lit, utf16] at this
      · have := starts_with_head h hP
        rw [ht] at this
        simp [lit, utf16] at this
      · omega

theorem updateOverallStatus_text (p : Page) (data : List (JSString × ApiStatus)) :
    (updateOverallStatus p data).statusText =
      if data.countP (fun e => e.2.available) = data.length then
        lit "Todas as APIs conectadas (" ++ numText (data.countP (fun e => e.2.available)) ++
          lit "/" ++ numText data.length ++ lit ")"
      else if 0 < data.countP (fun e => e.2.available) then
        lit "Parcialmente conectado (" ++ numText (data.countP (fun e => e.2.available)) ++
          lit "/" ++ numText data.length ++ lit ")"
      else lit "Nenhuma API conectada" := by
  unfold updateOverallStatus
  rw [connectedCount_eq, totalCount_eq]
  split
  · rfl
  · split <;> rfl

/-- The status object that `loadCurrentKeys` hands to `updateOverallStatus` is
never empty: the entries of the three providers are read first, and reading a
missing one throws. -/
theorem applyStatus_nonempty (p : Page) (data : List (JSString × ApiStatus))
    (h : (applyStatus p data).1 ≠ none) : data ≠ [] := by
  intro hd
  subst hd
  exact h rfl

/-- C2: on a status mapping of `n ≥ 1` providers of which `k` are available,
`updateOverallStatus` sets the label to the all-connected text, with the counts
`(k/n)`, iff `k = n`; to the partly-connected text, with the counts, iff
`0 < k < n`; and to the none text iff `k = 0`. -/
theorem updateOverallStatus_label (p : Page) (data : List (JSString × ApiStatus))
    (h : data ≠ []) :
    ((updateOverallStatus p data).statusText =
        lit "Todas as APIs conectadas (" ++ numText (data.countP (fun e => e.2.available)) ++
          lit "/" ++ numText data.length ++ lit ")" ↔
      data.countP (fun e => e.2.available) = data.length) ∧
    ((updateOverallStatus p data).statusText =
        lit "Parcialmente conectado (" ++ numText (data.countP (fun e => e.2.available)) ++
          lit "/" ++ numText data.length ++ lit ")" ↔
      0 < data.countP (fun e => e.2.available) ∧
      data.countP (fun e => e.2.available) < data.length) ∧
    ((updateOverallStatus p data).statusText = lit "Nenhuma API conectada" ↔
      data.countP (fun e => e.2.available) = 0) ∧
    (lit "Todas as APIs conectadas" <+: (updateOverallStatus p data).statusText ↔
      data.countP (fun e => e.2.available) = data.length) ∧
    (lit "Parcialmente conectado" <+: (updateOverallStatus p data).statusText ↔
      0 < data.countP (fun e => e.2.available) ∧
      data.countP (fun e => e.2.available) < data.length) := by
  have hs := updateOverallStatus_starts p data
  have ht := updateOverallStatus_text p data
  have hn : data.length ≠ 0 := by
    intro h0
    exact h (List.length_eq_zero.1 h0)
  have hkn : data.countP (fun e => e.2.available) ≤ data.length := List.countP_le_length _
  refine ⟨⟨fun he => hs.1.1 ?_, fun hk => ?_⟩, ⟨fun he => hs.2.1.1 ?_, fun hk => ?_⟩,
    ⟨fun he => (hs.2.2.1 he).1, fun hk => hs.2.2.2 ⟨hk, hn⟩⟩, hs.1, hs.2.1⟩
  · rw [he]
    exact ⟨lit " (" ++ numText (data.countP (fun e => e.2.available)) ++
      lit "/" ++ numText data.length ++ lit ")", rfl⟩
  · rw [ht, if_pos hk]
  · rw [he]
    exact ⟨lit " (" ++ numText (data.countP (fun e => e.2.available)) ++
      lit "/" ++ numText data.length ++ lit ")", rfl⟩
  · rw [ht, if_neg (by omega), if_pos hk.1]

/-- C2, on three providers of which two are available, and with none available. -/
theorem updateOverallStatus_label_witness :
    (updateOverallStatus blankPage twoOfThree).statusText =
      lit "Parcialmente conectado (" ++ numText 2 ++ lit "/" ++ numText 3 ++ lit ")" ∧
    (updateOverallStatus blankPage noneOfThree).statusText = lit "Nenhuma API conectada" :=
  ⟨(updateOverallStatus_label blankPage twoOfThree (by decide)).2.1.2 (by decide),
    (updateOverallStatus_label blankPage noneOfThree (by decide)).2.2.1.2 (by decide)⟩

theorem collectKeys_eq (p : Page) :
    collectKeys p =
      (if truthy (trim p.openai.keyValue) then
        [(Provider.openai, trim p.openai.keyValue)] else []) ++
      (if truthy (trim p.anthropic.keyValue) then
        [(Provider.anthropic, trim p.anthropic.keyValue)] else []) ++
      (if truthy (trim p.google.keyValue) then
        [(Provider.google, trim p.google.keyValue)] else []) := by
  simp only [collectKeys, providers, List.foldl, Page.row]
  by_cases h1 : truthy (trim p.openai.keyValue) = true <;>
  by_cases h2 : truthy (trim p.anthropic.keyValue) = true <;>
  by_cases h3 : truthy (trim p.google.keyValue) = true <;>
  simp [h1, h2, h3, setKey]

theorem mem_collectKeys (p : Page) (q : Provider) (v : JSString) :
    (q, v) ∈ collectKeys p ↔ trim (p.row q).keyValue ≠ [] ∧ v = trim (p.row q).keyValue := by
  rw [collectKeys_eq]
  simp only [← truthy_iff]
  by_cases h1 : truthy (trim p.openai.keyValue) = true <;>
  by_cases h2 : truthy (trim p.anthropic.keyValue) = true <;>
  by_cases h3 : truthy (trim p.google.keyValue) = true <;>
  cases q <;> simp [h1, h2, h3, Page.row]

theorem collectKeys_nodup (p : Page) : ((collectKeys p).map Prod.fst).Nodup := by
  rw [collectKeys_eq]
  by_cases h1 : truthy (trim p.openai.keyValue) = true <;>
  by_cases h2 : truthy (trim p.anthropic.keyValue) = true <;>
  by_cases h3 : truthy (trim p.google.keyValue) = true <;>
  simp [h1, h2, h3]

/-- C6: the mapping `saveAllKeys` builds holds provider `q` exactly when the
trimmed field of `q` is not empty, once, with the trimmed value; when the
mapping is empty a warning is shown and no request is issued; otherwise the
requests issued are exactly one POST to `/api-config/save-all` whose body is
the mapping. -/
theorem saveAllKeys_mapping_and_request (p : Page) (button : Button) (outcome : Outcome) :
    (∀ q v, (q, v) ∈ collectKeys p ↔
      trim (p.row q).keyValue ≠ [] ∧ v = trim (p.row q).keyValue) ∧
    ((collectKeys p).map Prod.fst).Nodup ∧
    (collectKeys p = [] →
      (saveAllKeys p button outcome).1.alert =
        some ⟨lit "Nenhuma chave para salvar", .warning⟩ ∧
      requests (saveAllKeys p button outcome).2.2 = []) ∧
    (collectKeys p ≠ [] →
      requests (saveAllKeys p button outcome).2.2 =
        [{ method := "POST", url := "/api-config/save-all"
           body := some (.keys (collectKeys p)) }]) := by
  refine ⟨mem_collectKeys p, collectKeys_nodup p, fun h => ?_, fun h => ?_⟩
  · simp [saveAllKeys, h, showAlert, requests]
  · have hl : (collectKeys p).length ≠ 0 := by
      simpa [List.length_eq_zero] using h
    unfold saveAllKeys
    simp only [hl, if_false]
    rcases outcome with ⟨r⟩ | m
    · by_cases hs : r.success = true <;> simp [hs, showAlert, requests]
    · simp [showAlert, requests]

/-- C6, on a page with no key typed and on a page with two keys typed. -/
theorem saveAllKeys_mapping_and_request_witness :
    collectKeys blankPage = [] ∧
    requests (saveAllKeys blankPage someButton success).2.2 = [] ∧
    collectKeys twoKeysPage = [(.openai, lit "sk-abc"), (.google, lit "AIza-xyz")] ∧
    requests (saveAllKeys twoKeysPage someButton success).2.2 =
      [{ method := "POST", url := "/api-config/save-all"
         body := some (.keys (collectKeys twoKeysPage)) }] :=
  ⟨by decide,
    ((saveAllKeys_mapping_and_request blankPage someButton success).2.2.1 (by decide)).2,
    by decide,
    (saveAllKeys_mapping_and_request twoKeysPage someButton success).2.2.2 (by decide)⟩

/-- C7: the code at the failing input.  A key of 19 code units is typed and
tested with success: the test request carries the typed key, but the key field
then holds the masked key, and both `saveApiKey` and `saveAllKeys` POST the
masked key, which differs from the key that was tested. -/
theorem saved_key_is_masked_after_test :
    requests (testApiKey typedPage .openai someButton success).2.2 =
      [{ method := "POST", url := "/api-config/test"
         body := some (.providerKey (lit "openai") (lit "sk-1234567890abcdef")) }] ∧
    (testApiKey typedPage .openai someButton success).1.openai.keyValue =
      lit "sk-12345...cdef" ∧
    requests (saveApiKey (testApiKey typedPage .openai someButton success).1
        .openai someButton success).2.2 =
      [{ method := "POST", url := "/api-config/save"
         body := some (.providerKey (lit "openai") (lit "sk-12345...cdef")) }] ∧
    requests (saveAllKeys (testApiKey typedPage .openai someButton success).1
        someButton success).2.2 =
      [{ method := "POST", url := "/api-config/save-all"
         body := some (.keys [(.openai, lit "sk-12345...cdef")]) }] ∧
    lit "sk-12345...cdef" ≠ lit "sk-1234567890abcdef" := by
  decide

end ApiConfigManager


/-! ## `HomeChat` -/

namespace HomeChat

section
variable {R : Type}

theorem sendQuickMessage_ok [Add R] [Div R] [NatCast R] (s : HomeChat R) (m : JSString)
    (data : ChatData R) (h : truthy (trim m) = true) :
    (sendQuickMessage s m (.ok data)).messageCount = s.messageCount + 1 ∧
    (sendQuickMessage s m (.ok data)).totalCost = s.totalCost + data.cost_estimate ∧
    (sendQuickMessage s m (.ok data)).totalTime = s.totalTime + data.response_time ∧
    (sendQuickMessage s m (.ok data)).totalTokens = s.totalTokens + data.tokens_used ∧
    (sendQuickMessage s m (.ok data)).dom.avgTime =
      some ((s.totalTime + data.response_time) / ((s.messageCount + 1 : Nat) : R)) ∧
    (sendQuickMessage s m (.ok data)).dom.messageCount = some (s.messageCount + 1) := by
  simp only [sendQuickMessage, sendMessage, sendMessageBegin, h, Bool.not_true,
    Bool.false_eq_true, if_false, sendMessageEnd, addMessage, if_true,
    updateStats, updateMessageCount, showTypingIndicator, hideTypingIndicator,
    updateModelIndicator, Nat.succ_pos, gt_iff_lt, reduceCtorEq]
  split <;> simp

theorem sendQuickMessage_failed [Add R] [Div R] [NatCast R] (s : HomeChat R) (m : JSString)
    (outcome : ChatOutcome R) (h : truthy (trim m) = true) (ho : okData outcome = none) :
    (sendQuickMessage s m outcome).messageCount = s.messageCount + 1 ∧
    (sendQuickMessage s m outcome).totalCost = s.totalCost ∧
    (sendQuickMessage s m outcome).totalTime = s.totalTime ∧
    (sendQuickMessage s m outcome).totalTokens = s.totalTokens := by
  cases outcome with
  | ok data => simp [okData] at ho
  | notOk detail =>
    simp [sendQuickMessage, sendMessage, sendMessageBegin, h, sendMessageEnd, addMessage,
      updateMessageCount, showTypingIndicator, hideTypingIndicator]
  | error message =>
    simp [sendQuickMessage, sendMessage, sendMessageBegin, h, sendMessageEnd, addMessage,
      updateMessageCount, showTypingIndicator, hideTypingIndicator]

theorem sendQuickMessage_blank [Add R] [Div R] [NatCast R] (s : HomeChat R) (m : JSString)
    (outcome : ChatOutcome R) (h : truthy (trim m) = false) :
    (sendQuickMessage s m outcome).messageCount = s.messageCount ∧
    (sendQuickMessage s m outcome).totalCost = s.totalCost ∧
    (sendQuickMessage s m outcome).totalTime = s.totalTime ∧
    (sendQuickMessage s m outcome).totalTokens = s.totalTokens := by
  simp [sendQuickMessage, sendMessage, sendMessageBegin, h]

theorem turns_ok [Add R] [Div R] [NatCast R] (ts : List (JSString × ChatData R)) :
    ∀ s : HomeChat R, (∀ t ∈ ts, truthy (trim t.1) = true) →
    (turns s (okTurns ts)).messageCount = s.messageCount + ts.length ∧
    (turns s (okTurns ts)).totalCost =
      (ts.map fun t => t.2.cost_estimate).foldl (· + ·) s.totalCost ∧
    (turns s (okTurns ts)).totalTime =
      (ts.map fun t => t.2.response_time).foldl (· + ·) s.totalTime ∧
    (turns s (okTurns ts)).totalTokens =
      (ts.map fun t => t.2.tokens_used).foldl (· + ·) s.totalTokens := by
  induction ts with
  | nil => intro s _; simp [okTurns, turns]
  | cons t ts ih =>
    intro s h
    have ht := sendQuickMessage_ok s t.1 t.2 (h t (List.mem_cons_self _ _))
    have := ih (sendQuickMessage s t.1 (.ok t.2)) fun x hx => h x (List.mem_cons_of_mem _ hx)
    simp only [okTurns, List.map_cons, turns, List.foldl_cons, List.length_cons] at this ⊢
    rw [ht.1, ht.2.1, ht.2.2.1, ht.2.2.2.1] at this
    refine ⟨by rw [this.1]; omega, this.2.1, this.2.2.1, this.2.2.2⟩

theorem turns_ok_avgTime [Add R] [Div R] [NatCast R] (ts : List (JSString × ChatData R)) :
    ∀ (s : HomeChat R) (t : JSString × ChatData R),
    (∀ x ∈ t :: ts, truthy (trim x.1) = true) →
    (turns s (okTurns (t :: ts))).dom.avgTime =
      some ((turns s (okTurns (t :: ts))).totalTime /
        (((turns s (okTurns (t :: ts))).messageCount : Nat) : R)) := by
  induction ts with
  | nil =>
    intro s t h
    have ht := sendQuickMessage_ok s t.1 t.2 (h t (List.mem_cons_self _ _))
    simp only [okTurns, List.map_cons, List.map_nil, turns]
    rw [ht.2.2.2.2.1, ht.1, ht.2.2.1]
  | cons u ts ih =>
    intro s t h
    have := ih (sendQuickMessage s t.1 (.ok t.2)) u fun x hx => h x (List.mem_cons_of_mem _ hx)
    simpa only [okTurns, List.map_cons, turns] using this

theorem turns_shown_count [Add R] [Div R] [NatCast R] (ts : List (JSString × ChatData R)) :
    ∀ (s : HomeChat R) (t : JSString × ChatData R),
    (∀ x ∈ t :: ts, truthy (trim x.1) = true) →
    (turns s (okTurns (t :: ts))).dom.messageCount =
      some (turns s (okTurns (t :: ts))).messageCount := by
  induction ts with
  | nil =>
    intro s t h
    have ht := sendQuickMessage_ok s t.1 t.2 (h t (List.mem_cons_self _ _))
    simp only [okTurns, List.map_cons, List.map_nil, turns]
    rw [ht.2.2.2.2.2, ht.1]
  | cons u ts ih =>
    intro s t h
    have := ih (sendQuickMessage s t.1 (.ok t.2)) u fun x hx => h x (List.mem_cons_of_mem _ hx)
    simpa only [okTurns, List.map_cons, turns] using this

/-- A fresh `HomeChat`: the four counters are zero, as the constructor sets them. -/
theorem new_fresh [Zero R] (dom : Dom R) (prefersDark : Bool) :
    fresh (new dom prefersDark) := ⟨rfl, rfl, rfl, rfl⟩

/-- C3: from a fresh `HomeChat`, after any sequence of successful chat turns the
three accumulators are the left-to-right sums `0 + c1 + ... + cn` of the costs,
times and token counts of the turns, each turn added once. -/
theorem running_totals_are_sums [Add R] [Zero R] [Div R] [NatCast R] (s : HomeChat R)
    (hs : fresh s) (ts : List (JSString × ChatData R))
    (h : ∀ t ∈ ts, truthy (trim t.1) = true) :
    (turns s (okTurns ts)).totalCost = (ts.map fun t => t.2.cost_estimate).foldl (· + ·) 0 ∧
    (turns s (okTurns ts)).totalTime = (ts.map fun t => t.2.response_time).foldl (· + ·) 0 ∧
    (turns s (okTurns ts)).totalTokens = (ts.map fun t => t.2.tokens_used).foldl (· + ·) 0 := by
  have := turns_ok ts s h
  rw [hs.2.1, hs.2.2.1, hs.2.2.2] at this
  exact this.2

/-- C3, on two turns with costs 0.001 and 0.002, times 0.77 and 1.23 and token
counts 30 and 50. -/
theorem running_totals_are_sums_witness :
    (turns (new (blankDom ℚ) false) (okTurns twoTurns)).totalCost = 0 + 1 / 1000 + 2 / 1000 ∧
    (turns (new (blankDom ℚ) false) (okTurns twoTurns)).totalTime = 0 + 77 / 100 + 123 / 100 ∧
    (turns (new (blankDom ℚ) false) (okTurns twoTurns)).totalTokens = 0 + 30 + 50 :=
  running_totals_are_sums (new (blankDom ℚ) false) (new_fresh _ _) twoTurns (by decide)

/-- C4: from a fresh `HomeChat`, after `n ≥ 1` successful chat turns in a row the
message count is `n` and the average time `updateStats` computes for display
is the total time divided by `n`; the total cost is the sum of the costs, which
for two turns is `c1 + c2`. -/
theorem messageCount_and_avgTime [AddZeroClass R] [Div R] [NatCast R] (s : HomeChat R)
    (hs : fresh s) (t : JSString × ChatData R) (ts : List (JSString × ChatData R))
    (h : ∀ x ∈ t :: ts, truthy (trim x.1) = true) :
    (turns s (okTurns (t :: ts))).messageCount = (t :: ts).length ∧
    (turns s (okTurns (t :: ts))).dom.messageCount = some (t :: ts).length ∧
    (turns s (okTurns (t :: ts))).dom.avgTime =
      some ((turns s (okTurns (t :: ts))).totalTime / (((t :: ts).length : Nat) : R)) ∧
    (turns s (okTurns (t :: ts))).totalCost =
      (ts.map fun x => x.2.cost_estimate).foldl (· + ·) t.2.cost_estimate ∧
    (turns s (okTurns (t :: ts))).totalTime =
      (ts.map fun x => x.2.response_time).foldl (· + ·) t.2.response_time := by
  have h1 := turns_ok (t :: ts) s h
  have h2 := turns_ok_avgTime ts s t h
  have h3 := turns_shown_count ts s t h
  rw [hs.1, Nat.zero_add] at h1
  rw [h1.1] at h2 h3
  refine ⟨h1.1, h3, h2, ?_, ?_⟩
  · rw [h1.2.1, hs.2.1, List.map_cons, List.foldl_cons, zero_add]
  · rw [h1.2.2.1, hs.2.2.1, List.map_cons, List.foldl_cons, zero_add]

/-- C4, on the worked example: a second successful turn with cost 0.002 and
time 1.23 after one earlier turn with cost 0.001 and time 0.77. -/
theorem messageCount_and_avgTime_witness :
    (turns (new (blankDom ℚ) false) (okTurns twoTurns)).messageCount = 2 ∧
    (turns (new (blankDom ℚ) false) (okTurns twoTurns)).dom.messageCount = some 2 ∧
    (turns (new (blankDom ℚ) false) (okTurns twoTurns)).dom.avgTime =
      some ((turns (new (blankDom ℚ) false) (okTurns twoTurns)).totalTime / ((2 : Nat) : ℚ)) ∧
    (turns (new (blankDom ℚ) false) (okTurns twoTurns)).totalCost = 1 / 1000 + 2 / 1000 ∧
    (turns (new (blankDom ℚ) false) (okTurns twoTurns)).totalTime = 77 / 100 + 123 / 100 :=
  messageCount_and_avgTime (new (blankDom ℚ) false) (new_fresh _ _) firstTurn [secondTurn]
    (by decide)


theorem successfulData_cons (t : JSString × ChatOutcome R) (ts : List (JSString × ChatOutcome R)) :
    successfulData (t :: ts) =
      (if sent t then (okData t.2).toList else []) ++ successfulData ts := by
  unfold successfulData
  rw [List.filterMap_cons]
  by_cases h : sent t = true
  · cases ho : okData t.2 <;> simp [h, ho]
  · simp [h]

theorem turns_any [Add R] [Div R] [NatCast R] (ts : List (JSString × ChatOutcome R)) :
    ∀ s : HomeChat R,
    (turns s ts).messageCount = s.messageCount + (ts.filter sent).length ∧
    (turns s ts).totalCost =
      ((successfulData ts).map fun d => d.cost_estimate).foldl (· + ·) s.totalCost ∧
    (turns s ts).totalTime =
      ((successfulData ts).map fun d => d.response_time).foldl (· + ·) s.totalTime ∧
    (turns s ts).totalTokens =
      ((successfulData ts).map fun d => d.tokens_used).foldl (· + ·) s.totalTokens := by
  induction ts with
  | nil => intro s; simp [turns, successfulData]
  | cons t ts ih =>
    intro s
    obtain ⟨m, outcome⟩ := t
    have := ih (sendQuickMessage s m outcome)
    rw [successfulData_cons]
    simp only [turns]
    by_cases h : truthy (trim m) = true
    · have hsent : sent (m, outcome) = true := h
      cases outcome with
      | ok data =>
        have ht := sendQuickMessage_ok s m data h
        rw [ht.1, ht.2.1, ht.2.2.1, ht.2.2.2.1] at this
        simp only [hsent, if_true, okData, Option.toList, List.singleton_append, List.map_cons,
          List.foldl_cons, List.filter_cons_of_pos, List.length_cons]
        exact ⟨by rw [this.1]; omega, this.2.1, this.2.2.1, this.2.2.2⟩
      | notOk detail =>
        have ht := sendQuickMessage_failed s m (.notOk detail) h rfl
        rw [ht.1, ht.2.1, ht.2.2.1, ht.2.2.2] at this
        simp only [hsent, if_true, okData, Option.toList, List.nil_append,
          List.filter_cons_of_pos, List.length_cons]
        exact ⟨by rw [this.1]; omega, this.2.1, this.2.2.1, this.2.2.2⟩
      | error message =>
        have ht := sendQuickMessage_failed s m (.error message) h rfl
        rw [ht.1, ht.2.1, ht.2.2.1, ht.2.2.2] at this
        simp only [hsent, if_true, okData, Option.toList, List.nil_append,
          List.filter_cons_of_pos, List.length_cons]
        exact ⟨by rw [this.1]; omega, this.2.1, this.2.2.1, this.2.2.2⟩
    · have hf : truthy (trim m) = false := by simpa using h
      have hsent : sent (m, outcome) = false := hf
      have ht := sendQuickMessage_blank s m outcome hf
      rw [ht.1, ht.2.1, ht.2.2.1, ht.2.2.2] at this
      have hsent2 : ¬ sent (m, outcome) = true := by simp [hsent]
      simp only [hsent, Bool.false_eq_true, if_false, List.nil_append,
        List.filter_cons_of_neg hsent2]
      exact this

theorem le_foldl_add [OrderedAddCommMonoid R] (l : List R) :
    ∀ a : R, (∀ x ∈ l, 0 ≤ x) → a ≤ l.foldl (· + ·) a := by
  induction l with
  | nil => intro a _; exact le_refl a
  | cons x l ih =>
    intro a h
    exact le_trans (le_add_of_nonneg_right (h x (List.mem_cons_self _ _)))
      (ih (a + x) fun y hy => h y (List.mem_cons_of_mem _ hy))

/-- C5, as stated, fails for `messageCount`: a chat turn ended by a transport
error raises it from 0 to 1. -/
theorem failed_turn_counts_message :
    failed (lit "oi", (.error (lit "Failed to fetch") : ChatOutcome ℚ)) = true ∧
    (new (blankDom ℚ) false).messageCount = 0 ∧
    (sendQuickMessage (new (blankDom ℚ) false) (lit "oi")
      (.error (lit "Failed to fetch"))).messageCount = 1 := by
  decide

/-- C5, amended: the three totals are accumulated only from successful turns
and `messageCount` counts every message sent.  A turn that ends in a non-OK
response or a transport error leaves `totalCost`, `totalTime` and `totalTokens`
unchanged and raises `messageCount` by one; after any turns the totals are the
sums over the successful turns; with non-negative backend values no field
decreases. -/
theorem totals_only_from_successful_turns [OrderedAddCommMonoid R] [Div R] [NatCast R]
    (s : HomeChat R) (m : JSString) (outcome : ChatOutcome R)
    (ts : List (JSString × ChatOutcome R)) :
    (failed (m, outcome) = true →
      (sendQuickMessage s m outcome).totalCost = s.totalCost ∧
      (sendQuickMessage s m outcome).totalTime = s.totalTime ∧
      (sendQuickMessage s m outcome).totalTokens = s.totalTokens ∧
      (sendQuickMessage s m outcome).messageCount = s.messageCount + 1) ∧
    ((turns s ts).messageCount = s.messageCount + (ts.filter sent).length ∧
      (turns s ts).totalCost =
        ((successfulData ts).map fun d => d.cost_estimate).foldl (· + ·) s.totalCost ∧
      (turns s ts).totalTime =
        ((successfulData ts).map fun d => d.response_time).foldl (· + ·) s.totalTime ∧
      (turns s ts).totalTokens =
        ((successfulData ts).map fun d => d.tokens_used).foldl (· + ·) s.totalTokens) ∧
    ((∀ d ∈ successfulData ts,
        0 ≤ d.cost_estimate ∧ 0 ≤ d.response_time ∧ 0 ≤ d.tokens_used) →
      s.messageCount ≤ (turns s ts).messageCount ∧
      s.totalCost ≤ (turns s ts).totalCost ∧
      s.totalTime ≤ (turns s ts).totalTime ∧
      s.totalTokens ≤ (turns s ts).totalTokens) := by
  have hall := turns_any ts s
  refine ⟨fun hf => ?_, hall, fun hpos => ?_⟩
  · simp only [failed, sent, Bool.and_eq_true, Option.isNone_iff_eq_none] at hf
    have := sendQuickMessage_failed s m outcome hf.1 hf.2
    exact ⟨this.2.1, this.2.2.1, this.2.2.2, this.1⟩
  · rw [hall.1, hall.2.1, hall.2.2.1, hall.2.2.2]
    refine ⟨Nat.le_add_right _ _, le_foldl_add _ _ ?_, le_foldl_add _ _ ?_,
      le_foldl_add _ _ ?_⟩
    · intro x hx
      obtain ⟨d, hd, rfl⟩ := List.mem_map.1 hx
      exact (hpos d hd).1
    · intro x hx
      obtain ⟨d, hd, rfl⟩ := List.mem_map.1 hx
      exact (hpos d hd).2.1
    · intro x hx
      obtain ⟨d, hd, rfl⟩ := List.mem_map.1 hx
      exact (hpos d hd).2.2

/-- C5, amended, on a turn ended by a transport error followed by a successful
turn. -/
theorem totals_only_from_successful_turns_witness :
    failed (lit "oi", (.error (lit "Failed to fetch") : ChatOutcome ℚ)) = true ∧
    (sendQuickMessage (new (blankDom ℚ) false) (lit "oi")
      (.error (lit "Failed to fetch"))).totalCost = (new (blankDom ℚ) false).totalCost ∧
    (new (blankDom ℚ) false).totalCost ≤ (turns (new (blankDom ℚ) false) mixedTurns).totalCost :=
  ⟨by decide,
    ((totals_only_from_successful_turns (new (blankDom ℚ) false) (lit "oi")
      (.error (lit "Failed to fetch")) mixedTurns).1 (by decide)).1,
    ((totals_only_from_successful_turns (new (blankDom ℚ) false) (lit "oi")
      (.error (lit "Failed to fetch")) mixedTurns).2.2 (by
        intro d hd
        have hd : d = firstTurn.2 := by
          have : successfulData mixedTurns = [firstTurn.2] := rfl
          rw [this] at hd
          simpa using hd
        subst hd
        norm_num [firstTurn])).2.1⟩


/-- C8, as stated, fails on a name that contains two of the substrings: a name
containing `claude` is mapped to `openai` when it also contains `gpt`. -/
theorem getProviderFromModel_claude_gpt :
    lit "claude" <:+: lit "claude-gpt" ∧
    getProviderFromModel (lit "claude-gpt") = lit "openai" ∧
    getProviderFromModel (lit "claude-gpt") ≠ lit "anthropic" := by
  decide

/-- C8, amended: the first match in the order `gpt`, `claude`, `gemini` decides.
The result is `openai` when the name contains `gpt`; `anthropic` when it
contains `claude` and not `gpt`; `google` when it contains `gemini` and neither
`gpt` nor `claude`; `unknown` when it contains none of the three. -/
theorem getProviderFromModel_first_match (modelName : JSString) :
    (lit "gpt" <:+: modelName → getProviderFromModel modelName = lit "openai") ∧
    (¬ lit "gpt" <:+: modelName → lit "claude" <:+: modelName →
      getProviderFromModel modelName = lit "anthropic") ∧
    (¬ lit "gpt" <:+: modelName → ¬ lit "claude" <:+: modelName →
      lit "gemini" <:+: modelName → getProviderFromModel modelName = lit "google") ∧
    (¬ lit "gpt" <:+: modelName → ¬ lit "claude" <:+: modelName →
      ¬ lit "gemini" <:+: modelName → getProviderFromModel modelName = lit "unknown") := by
  simp only [← includes_iff]
  unfold getProviderFromModel
  refine ⟨fun h => ?_, fun h1 h2 => ?_, fun h1 h2 h3 => ?_, fun h1 h2 h3 => ?_⟩ <;> simp [*]

/-- C8, amended, on four model names. -/
theorem getProviderFromModel_first_match_witness :
    getProviderFromModel (lit "gpt-4") = lit "openai" ∧
    getProviderFromModel (lit "claude-3-opus") = lit "anthropic" ∧
    getProviderFromModel (lit "gemini-pro") = lit "google" ∧
    getProviderFromModel (lit "llama-3") = lit "unknown" :=
  ⟨(getProviderFromModel_first_match (lit "gpt-4")).1 (by decide),
    (getProviderFromModel_first_match (lit "claude-3-opus")).2.1 (by decide) (by decide),
    (getProviderFromModel_first_match (lit "gemini-pro")).2.2.1 (by decide) (by decide)
      (by decide),
    (getProviderFromModel_first_match (lit "llama-3")).2.2.2 (by decide) (by decide)
      (by decide)⟩

/-- C9, as stated, fails when the stored preference is the empty string: it is
stored, yet `initTheme` applies the OS-level preference. -/
theorem initTheme_empty_stored_theme :
    emptyStoredTheme.dom.storedTheme = some (lit "") ∧
    (initTheme emptyStoredTheme true).dom.dataTheme = some (lit "dark") ∧
    (initTheme emptyStoredTheme true).dom.dataTheme ≠ emptyStoredTheme.dom.storedTheme := by
  decide

/-- C9, amended: `initTheme` applies the stored preference when one is stored
and is not the empty string, and otherwise the OS-level preference, `dark` if
the dark colour scheme is preferred and `light` if not; `toggleTheme` switches
`dark` to `light` and any other current theme to `dark`; after `initTheme` and
after `toggleTheme` the stored value is the theme applied to the document. -/
theorem theme_applied_and_persisted (s : HomeChat R) (prefersDark : Bool) :
    (∀ t, s.dom.storedTheme = some t → t ≠ [] →
      (initTheme s prefersDark).dom.dataTheme = some t) ∧
    (s.dom.storedTheme = none ∨ s.dom.storedTheme = some [] →
      (initTheme s prefersDark).dom.dataTheme =
        some (if prefersDark then lit "dark" else lit "light")) ∧
    (s.dom.dataTheme = some (lit "dark") →
      (toggleTheme s).dom.dataTheme = some (lit "light")) ∧
    (s.dom.dataTheme ≠ some (lit "dark") →
      (toggleTheme s).dom.dataTheme = some (lit "dark")) ∧
    (initTheme s prefersDark).dom.storedTheme = (initTheme s prefersDark).dom.dataTheme ∧
    (toggleTheme s).dom.storedTheme = (toggleTheme s).dom.dataTheme := by
  refine ⟨fun t ht hne => ?_, fun h => ?_, fun h => ?_, fun h => ?_, rfl, rfl⟩
  · have : truthy t = true := (truthy_iff t).2 hne
    simp [initTheme, setTheme, initialTheme, ht, this]
  · rcases h with h | h <;> simp [initTheme, setTheme, initialTheme, h, truthy]
  · simp [toggleTheme, setTheme, h]
  · simp [toggleTheme, setTheme, h]

/-- C9, amended, on a page whose stored preference is `light`. -/
theorem theme_applied_and_persisted_witness :
    (initTheme lightStoredTheme true).dom.dataTheme = some (lit "light") ∧
    (toggleTheme (initTheme lightStoredTheme true)).dom.dataTheme = some (lit "dark") ∧
    (toggleTheme (toggleTheme (initTheme lightStoredTheme true))).dom.dataTheme =
      some (lit "light") :=
  ⟨(theme_applied_and_persisted lightStoredTheme true).1 (lit "light") rfl (by decide),
    (theme_applied_and_persisted (initTheme lightStoredTheme true) true).2.2.2.1 (by decide),
    (theme_applied_and_persisted (toggleTheme (initTheme lightStoredTheme true)) true).2.2.1
      (by decide)⟩

end

end HomeChat

/-! ## `RouterDashboard` -/

namespace RouterDashboard

theorem slice0_length_le {α : Type} (xs : List α) (stop : Nat) :
    (slice0 xs stop).length ≤ stop := by
  simp [slice0, List.length_take]

theorem displayActivity_shown (activities : List Activity) (now : Int) :
    (displayActivity activities now).shown = activities.length := by
  unfold displayActivity
  split
  · next h => simp [ActivityList.shown, h]
  · simp [ActivityList.shown]

/-- C10: for every stats snapshot, clock reading and random draws, the list
`generateMockActivity` returns has at most 5 entries, and `displayActivity`
renders exactly the entries of that list. -/
theorem generateMockActivity_at_most_five (stats : Stats) (now now2 : Int) (r1 r2 : ℚ) :
    (generateMockActivity stats now r1 r2).length ≤ 5 ∧
    (displayActivity (generateMockActivity stats now r1 r2) now2).shown =
      (generateMockActivity stats now r1 r2).length := by
  refine ⟨?_, displayActivity_shown _ _⟩
  unfold generateMockActivity
  exact slice0_length_le _ 5

end RouterDashboard

/-! ## Masking twice, controls, key events, polling, activity order, models grid -/


namespace ApiConfigManager

theorem maskKey_long (key : JSString) (h : 10 ≤ key.length) :
    maskKey key = key.take 8 ++ lit "..." ++ key.drop (key.length - 4) := by
  have hne : truthy key = true := by
    cases key with
    | nil => simp at h
    | cons a t => rfl
  have h4 : ((key.length : Int) - 4) = ((key.length - 4 : Nat) : Int) := by omega
  unfold maskKey
  rw [if_neg (by simp [hne]; omega), h4,
    substringFrom_eq_drop key (key.length - 4) (by omega)]
  have := substring_zero key 8 (by omega)
  simp only [Nat.cast_ofNat, Int.Nat.cast_ofNat_Int] at this ⊢
  rw [← this]

theorem maskKey_long_length (key : JSString) (h : 10 ≤ key.length) :
    (maskKey key).length = 15 := by
  rw [maskKey_long key h]
  have : (lit "...").length = 3 := rfl
  simp only [List.length_append, List.length_take, List.length_drop, this]
  omega

/-- C18: `maskKey` is idempotent, and the masked form of a key of at least 10
code units has exactly 15 code units. -/
theorem maskKey_idempotent (key : JSString) :
    maskKey (maskKey key) = maskKey key ∧ (10 ≤ key.length → (maskKey key).length = 15) := by
  refine ⟨?_, maskKey_long_length key⟩
  by_cases h : 10 ≤ key.length
  · have hl := maskKey_long_length key h
    rw [maskKey_long (maskKey key) (by omega), hl]
    have hm := maskKey_long key h
    have h8 : (key.take 8).length = 8 := by simp; omega
    have h11 : (key.take 8 ++ lit "...").length = 11 := by
      rw [List.length_append, h8]; rfl
    have ht : (maskKey key).take 8 = key.take 8 := by
      rw [hm, List.append_assoc]
      exact List.take_left' h8
    have hd : (maskKey key).drop (15 - 4) = key.drop (key.length - 4) := by
      rw [hm]
      exact List.drop_left' h11
    rw [ht, hd, ← hm]
  · have hlt : key.length < 10 := by omega
    have : maskKey key = key := by simp [maskKey, hlt]
    rw [this, this]

/-- C18, at a key of 19 code units. -/
theorem maskKey_idempotent_witness :
    maskKey (maskKey (lit "sk-1234567890abcdef")) = maskKey (lit "sk-1234567890abcdef") ∧
    (maskKey (lit "sk-1234567890abcdef")).length = 15 :=
  ⟨(maskKey_idempotent (lit "sk-1234567890abcdef")).1,
    (maskKey_idempotent (lit "sk-1234567890abcdef")).2 (by decide)⟩

theorem testApiKey_button (p : Page) (provider : Provider) (button : Button)
    (outcome : Outcome) (h : button.disabled = false) :
    (testApiKey p provider button outcome).2.1 = button := by
  obtain ⟨html, dis⟩ := button
  simp only at h
  subst h
  unfold testApiKey
  by_cases hk : truthy (trim (p.row provider).keyValue) = true
  · simp only [hk, Bool.not_true, Bool.false_eq_true, if_false]
  · simp only [hk, Bool.not_false, if_true]

theorem saveApiKey_button (p : Page) (provider : Provider) (button : Button)
    (outcome : Outcome) (h : button.disabled = false) :
    (saveApiKey p provider button outcome).2.1 = button := by
  obtain ⟨html, dis⟩ := button
  simp only at h
  subst h
  unfold saveApiKey
  by_cases hk : truthy (trim (p.row provider).keyValue) = true
  · simp only [hk, Bool.not_true, Bool.false_eq_true, if_false]
  · simp only [hk, Bool.not_false, if_true]

theorem saveAllKeys_button (p : Page) (button : Button)
    (outcome : Outcome) (h : button.disabled = false) :
    (saveAllKeys p button outcome).2.1 = button := by
  obtain ⟨html, dis⟩ := button
  simp only at h
  subst h
  unfold saveAllKeys
  by_cases hk : (collectKeys p).length = 0
  · simp only [hk, if_true]
  · simp only [hk, if_false]

end ApiConfigManager


namespace RouterDashboard

theorem updateStats_no_reject (d : Page) (outcome : Fetched StatsResponse) :
    (updateStats d outcome).2 = none := by
  unfold updateStats
  split <;> rfl

theorem updateModels_no_reject (d : Page) (outcome : Fetched ModelsResponse) :
    (updateModels d outcome).2 = none := by
  unfold updateModels
  split <;> rfl

theorem updateActivity_no_reject (d : Page) (outcome : Fetched StatsResponse) (draws : Draws) :
    (updateActivity d outcome draws).2 = none := by
  unfold updateActivity
  split <;> rfl

theorem updateStats_testButton (d : Page) (outcome : Fetched StatsResponse) :
    (updateStats d outcome).1.testButtonDisabled = d.testButtonDisabled ∧
    (updateStats d outcome).1.testButtonHTML = d.testButtonHTML := by
  cases outcome <;> exact ⟨rfl, rfl⟩

theorem testAPI_button (d : Page) (outcome : ChatOutcome ℚ)
    (statsOutcome : Fetched StatsResponse) :
    (truthy (trim d.testMessage) = true →
      (testAPI d outcome statsOutcome).testButtonDisabled = false ∧
      (testAPI d outcome statsOutcome).testButtonHTML =
        lit "<i class=\"fas fa-paper-plane\"></i> Testar") ∧
    (truthy (trim d.testMessage) = false →
      (testAPI d outcome statsOutcome).testButtonDisabled = d.testButtonDisabled ∧
      (testAPI d outcome statsOutcome).testButtonHTML = d.testButtonHTML) := by
  constructor
  · intro h
    unfold testAPI
    simp only [h, Bool.not_true, Bool.false_eq_true, if_false]
    rw [(updateStats_testButton _ _).1, (updateStats_testButton _ _).2]
    exact ⟨rfl, rfl⟩
  · intro h
    unfold testAPI
    simp only [h, Bool.not_false, if_true, and_self]

end RouterDashboard

namespace HomeChat

section
variable {R : Type}

theorem sendMessage_controls [Add R] [Div R] [NatCast R] (s : HomeChat R)
    (outcome : ChatOutcome R) (h : truthy (trim s.dom.chatInput) = true) :
    (sendMessage s outcome).dom.sendBtnDisabled = false ∧
    (sendMessage s outcome).dom.sendBtnHTML = "<i class=\"fas fa-paper-plane\"></i>" ∧
    (sendMessage s outcome).dom.typingIndicator = false := by
  simp only [sendMessage, sendMessageBegin, h, Bool.not_true, Bool.false_eq_true, if_false,
    sendMessageEnd, hideTypingIndicator, and_self]

end

end HomeChat

/-! ## Controls after a request -/

/-- C11: on every outcome, after `sendMessage` with a message that is not blank
the send button is enabled, shows the paper-plane icon and the typing indicator
is hidden; after `testApiKey`, `saveApiKey` or `saveAllKeys`, called from an
enabled button, the button is enabled with the label it had; after `testAPI`,
called with the idle test button, the button is enabled with the label it had.
In detail `testAPI` with a message that is not blank writes the fixed label of
its `finally` block, and with a blank message leaves the button as it was. -/
theorem controls_restored {R : Type} [Add R] [Div R] [NatCast R] (s : HomeChat R)
    (chatOutcome : ChatOutcome R) (p : ApiConfigManager.Page)
    (provider : ApiConfigManager.Provider) (button : ApiConfigManager.Button)
    (outcome : ApiConfigManager.Outcome) (d : RouterDashboard.Page)
    (testOutcome : ChatOutcome ℚ) (statsOutcome : RouterDashboard.Fetched
      RouterDashboard.StatsResponse) :
    (truthy (trim s.dom.chatInput) = true →
      (HomeChat.sendMessage s chatOutcome).dom.sendBtnDisabled = false ∧
      (HomeChat.sendMessage s chatOutcome).dom.sendBtnHTML =
        "<i class=\"fas fa-paper-plane\"></i>" ∧
      (HomeChat.sendMessage s chatOutcome).dom.typingIndicator = false) ∧
    (button.disabled = false →
      (ApiConfigManager.testApiKey p provider button outcome).2.1.disabled = false ∧
      (ApiConfigManager.testApiKey p provider button outcome).2.1.innerHTML =
        button.innerHTML ∧
      (ApiConfigManager.saveApiKey p provider button outcome).2.1.disabled = false ∧
      (ApiConfigManager.saveApiKey p provider button outcome).2.1.innerHTML =
        button.innerHTML ∧
      (ApiConfigManager.saveAllKeys p button outcome).2.1.disabled = false ∧
      (ApiConfigManager.saveAllKeys p button outcome).2.1.innerHTML = button.innerHTML) ∧
    (truthy (trim d.testMessage) = true →
      (RouterDashboard.testAPI d testOutcome statsOutcome).testButtonDisabled = false ∧
      (RouterDashboard.testAPI d testOutcome statsOutcome).testButtonHTML =
        lit "<i class=\"fas fa-paper-plane\"></i> Testar") ∧
    (truthy (trim d.testMessage) = false →
      (RouterDashboard.testAPI d testOutcome statsOutcome).testButtonDisabled =
        d.testButtonDisabled ∧
      (RouterDashboard.testAPI d testOutcome statsOutcome).testButtonHTML =
        d.testButtonHTML) ∧
    (d.testButtonDisabled = false → d.testButtonHTML = RouterDashboard.idleTestLabel →
      (RouterDashboard.testAPI d testOutcome statsOutcome).testButtonDisabled = false ∧
      (RouterDashboard.testAPI d testOutcome statsOutcome).testButtonHTML =
        d.testButtonHTML) := by
  have ht := RouterDashboard.testAPI_button d testOutcome statsOutcome
  refine ⟨HomeChat.sendMessage_controls s chatOutcome, fun h => ?_, ht.1, ht.2,
    fun hd hl => ?_⟩
  · rw [ApiConfigManager.testApiKey_button p provider button outcome h,
      ApiConfigManager.saveApiKey_button p provider button outcome h,
      ApiConfigManager.saveAllKeys_button p button outcome h]
    exact ⟨h, rfl, h, rfl, h, rfl⟩
  · cases hm : truthy (trim d.testMessage) with
    | true => exact ⟨(ht.1 hm).1, (ht.1 hm).2.trans hl.symm⟩
    | false => exact ⟨(ht.2 hm).1.trans hd, (ht.2 hm).2⟩

/-- C11, on a chat page with a message typed, a configuration page with a key
typed and a dashboard page with the idle test button and a message typed. -/
theorem controls_restored_witness :
    (HomeChat.sendMessage HomeChat.typedChat (.error (lit "Failed to fetch"))).dom.sendBtnDisabled
      = false ∧
    (ApiConfigManager.saveApiKey ApiConfigManager.typedPage .openai
      ApiConfigManager.someButton (.rejected (lit "Failed to fetch"))).2.1.innerHTML =
        ApiConfigManager.someButton.innerHTML ∧
    (RouterDashboard.testAPI RouterDashboard.testPage (.notOk none)
      .unreadable).testButtonDisabled = false ∧
    (RouterDashboard.testAPI RouterDashboard.testPage (.notOk none)
      .unreadable).testButtonHTML = RouterDashboard.testPage.testButtonHTML :=
  ⟨((controls_restored HomeChat.typedChat (.error (lit "Failed to fetch"))
      ApiConfigManager.typedPage .openai ApiConfigManager.someButton
      (.rejected (lit "Failed to fetch")) RouterDashboard.testPage (.notOk none)
      .unreadable).1 (by decide)).1,
    ((controls_restored HomeChat.typedChat (.error (lit "Failed to fetch"))
      ApiConfigManager.typedPage .openai ApiConfigManager.someButton
      (.rejected (lit "Failed to fetch")) RouterDashboard.testPage (.notOk none)
      .unreadable).2.1 (by decide)).2.2.2.1,
    ((controls_restored HomeChat.typedChat (.error (lit "Failed to fetch"))
      ApiConfigManager.typedPage .openai ApiConfigManager.someButton
      (.rejected (lit "Failed to fetch")) RouterDashboard.testPage (.notOk none)
      .unreadable).2.2.1 (by decide)).1,
    ((controls_restored HomeChat.typedChat (.error (lit "Failed to fetch"))
      ApiConfigManager.typedPage .openai ApiConfigManager.someButton
      (.rejected (lit "Failed to fetch")) RouterDashboard.testPage (.notOk none)
      .unreadable).2.2.2.2 rfl rfl).2⟩


namespace HomeChat

section
variable {R : Type}

/-- C12: the code at the failing input.  With a message typed, pressing Enter
without Ctrl calls `preventDefault()`, so no new line is inserted, and sends
the message: a `/chat` request is issued and the input is cleared. -/
theorem plain_enter_sends :
    (chatInputKeypress typedChat (lit "Enter") false).defaultPrevented = true ∧
    (chatInputKeypress typedChat (lit "Enter") false).requests =
      [{ message := lit "oi", user_id := lit "home_user" }] ∧
    (chatInputKeypress typedChat (lit "Enter") false).chat.dom.chatInput = [] ∧
    (chatInputKeypress typedChat (lit "Enter") true).requests =
      [{ message := lit "oi", user_id := lit "home_user" }] := by
  decide

theorem sendMessageBegin_some (s : HomeChat R) (req : ChatRequest)
    (h : (sendMessageBegin s).2 = some req) :
    (sendMessageBegin s).1.dom.sendBtnDisabled = true := by
  unfold sendMessageBegin at h ⊢
  by_cases hm : truthy (trim s.dom.chatInput) = true
  · simp only [hm, Bool.not_true, Bool.false_eq_true, if_false]
  · simp [hm] at h

theorem sendMessageBegin_none (s : HomeChat R) (h : (sendMessageBegin s).2 = none) :
    (sendMessageBegin s).1 = s := by
  unfold sendMessageBegin at h ⊢
  by_cases hm : truthy (trim s.dom.chatInput) = true
  · simp [hm] at h
  · simp [hm]

theorem sendMessageEnd_enabled [Add R] [Div R] [NatCast R] (s : HomeChat R)
    (outcome : ChatOutcome R) : (sendMessageEnd s outcome).dom.sendBtnDisabled = false := by
  simp only [sendMessageEnd]

theorem step_serialized [Add R] [Div R] [NatCast R] (σ : Session R) (e : Event R)
    (he : byButton e = true) (h : serialized σ) : serialized (step σ e) := by
  cases e with
  | input text =>
    rcases h with h | ⟨h1, h2⟩
    · exact Or.inl h
    · exact Or.inr ⟨h1, h2⟩
  | click =>
    simp only [step, sendBtnClick]
    by_cases hd : σ.chat.dom.sendBtnDisabled = true
    · simpa [hd] using h
    · have hd : σ.chat.dom.sendBtnDisabled = false := by simpa using hd
      have h0 : σ.inFlight = 0 := by
        rcases h with h | ⟨_, h2⟩
        · exact h
        · rw [hd] at h2; cases h2
      simp only [hd, Bool.false_eq_true, if_false, h0, Nat.zero_add]
      cases hr : (sendMessageBegin σ.chat).2 with
      | none => exact Or.inl rfl
      | some req => exact Or.inr ⟨rfl, sendMessageBegin_some σ.chat req hr⟩
  | keypress key ctrlKey => cases he
  | quick message => cases he
  | resolved outcome =>
    simp only [step]
    by_cases h0 : σ.inFlight = 0
    · simpa [h0] using h
    · rcases h with h | ⟨h1, _⟩
      · exact absurd h h0
      · simp only [h0, if_false]
        exact Or.inl (by simp [h1])

theorem run_serialized [Add R] [Div R] [NatCast R] (es : List (Event R)) :
    ∀ σ : Session R, (∀ e ∈ es, byButton e = true) → serialized σ → serialized (run σ es) := by
  induction es with
  | nil => intro σ _ h; exact h
  | cons e es ih =>
    intro σ he h
    exact ih (step σ e) (fun x hx => he x (List.mem_cons_of_mem _ hx))
      (step_serialized σ e (he e (List.mem_cons_self _ _)) h)

/-- C13, as stated, fails for the Enter key: the user types and presses Enter,
then types and presses Enter again; the second `/chat` request is issued while
the first is still in flight. -/
theorem second_request_while_in_flight :
    (run { chat := new (blankDom ℚ) false, inFlight := 0 } (twoEnters.take 2)).inFlight = 1 ∧
    (run { chat := new (blankDom ℚ) false, inFlight := 0 } twoEnters).inFlight = 2 ∧
    (run { chat := new (blankDom ℚ) false, inFlight := 0 }
      [.quick (lit "oi"), .quick (lit "tudo bem?")]).inFlight = 2 := by
  decide

/-- C13, amended: `sendMessage` disables the send button until its request ends,
and a disabled button takes no click; so from a page with no request in flight,
for every sequence of typing, clicks on the send button and ends of requests,
at most one `/chat` request is in flight, and the button is disabled while one
is. -/
theorem clicks_are_serialized [Add R] [Div R] [NatCast R] (s : HomeChat R)
    (es : List (Event R)) (h : ∀ e ∈ es, byButton e = true) :
    (run { chat := s, inFlight := 0 } es).inFlight ≤ 1 ∧
    ((run { chat := s, inFlight := 0 } es).inFlight = 1 →
      (run { chat := s, inFlight := 0 } es).chat.dom.sendBtnDisabled = true) := by
  have := run_serialized es { chat := s, inFlight := 0 } h (Or.inl rfl)
  rcases this with h0 | ⟨h1, h2⟩
  · exact ⟨by omega, fun h1 => by omega⟩
  · exact ⟨by omega, fun _ => h2⟩

/-- C13, amended, on two clicks with no answer in between: the second click finds
the button disabled and issues nothing. -/
theorem clicks_are_serialized_witness :
    (run { chat := new (blankDom ℚ) false, inFlight := 0 } (twoClicks.take 4)).inFlight ≤ 1 ∧
    (run { chat := new (blankDom ℚ) false, inFlight := 0 } twoClicks).inFlight ≤ 1 :=
  ⟨(clicks_are_serialized (new (blankDom ℚ) false) (twoClicks.take 4) (by decide)).1,
    (clicks_are_serialized (new (blankDom ℚ) false) twoClicks (by decide)).1⟩

end

end HomeChat


namespace RouterDashboard

theorem updateStats_log (d : Page) (outcome : Fetched StatsResponse) :
    (updateStats d outcome).1.fetches = d.fetches ++ [get "/stats"] ∧
    (updateStats d outcome).1.updateInterval = d.updateInterval := by
  cases outcome <;> exact ⟨rfl, rfl⟩

theorem updateModels_log (d : Page) (outcome : Fetched ModelsResponse) :
    (updateModels d outcome).1.fetches = d.fetches ++ [get "/models"] ∧
    (updateModels d outcome).1.updateInterval = d.updateInterval := by
  rcases outcome with message | _ | ⟨⟨_ | body⟩⟩ <;> exact ⟨rfl, rfl⟩

theorem updateActivity_log (d : Page) (outcome : Fetched StatsResponse) (draws : Draws) :
    (updateActivity d outcome draws).1.fetches = d.fetches ++ [get "/stats"] ∧
    (updateActivity d outcome draws).1.updateInterval = d.updateInterval := by
  cases outcome <;> exact ⟨rfl, rfl⟩

theorem tick_log (d : Page) (r : Round) :
    (tick d r).fetches = d.fetches ++ [get "/stats", get "/models", get "/stats"] ∧
    (tick d r).updateInterval = d.updateInterval := by
  unfold tick
  rw [(updateActivity_log _ _ _).1, (updateModels_log _ _).1, (updateStats_log _ _).1,
    (updateActivity_log _ _ _).2, (updateModels_log _ _).2, (updateStats_log _ _).2]
  simp

theorem setStatus_log (d : Page) (status : JSString) :
    (setStatus d status).fetches = d.fetches ∧
    (setStatus d status).updateInterval = d.updateInterval := by
  unfold setStatus
  split <;> exact ⟨rfl, rfl⟩

theorem loadInitialData_eq (d : Page) (r : Round) :
    loadInitialData d r =
      setStatus (updateActivity (updateModels (updateStats d r.stats).1 r.models).1
        r.activity r.draws).1 (lit "online") := by
  unfold loadInitialData
  have h1 := updateStats_no_reject d r.stats
  have h2 := updateModels_no_reject (updateStats d r.stats).1 r.models
  have h3 := updateActivity_no_reject (updateModels (updateStats d r.stats).1 r.models).1
    r.activity r.draws
  rcases hs : updateStats d r.stats with ⟨d1, e1⟩
  rw [hs] at h1 h2 h3
  simp only at h1 h2 h3
  subst h1
  simp only
  rcases hm : updateModels d1 r.models with ⟨d2, e2⟩
  rw [hm] at h2 h3
  simp only at h2 h3
  subst h2
  simp only
  rcases ha : updateActivity d2 r.activity r.draws with ⟨d3, e3⟩
  rw [ha] at h3
  simp only at h3
  subst h3
  rfl

theorem loadInitialData_log (d : Page) (r : Round) :
    (loadInitialData d r).fetches = d.fetches ++ [get "/stats", get "/models", get "/stats"] ∧
    (loadInitialData d r).updateInterval = d.updateInterval := by
  rw [loadInitialData_eq, (setStatus_log _ _).1, (setStatus_log _ _).2]
  exact tick_log d r

theorem fetchCycles_cycle (d e : Page)
    (h : e.fetches = d.fetches ++ [get "/stats", get "/models", get "/stats"]) :
    fetchCycles e = fetchCycles d + 1 := by
  unfold fetchCycles
  rw [h, List.filter_append, List.length_append]
  rfl

theorem ticks_cycles (rs : List Round) :
    ∀ d : Page, fetchCycles (ticks d rs) = fetchCycles d + rs.length := by
  induction rs with
  | nil => intro d; rfl
  | cons r rs ih =>
    intro d
    rw [ticks, ih, fetchCycles_cycle d (tick d r) (tick_log d r).1, List.length_cons]
    omega

theorem init_interval (d : Page) (first : Round) :
    (init d first).updateInterval = some 5000 := by
  unfold init
  rw [(loadInitialData_log _ _).2]
  rfl

theorem mountedFor_cycles (d : Page) (first : Round) (later : Nat → Round) (elapsed : Nat) :
    fetchCycles (mountedFor d first later elapsed) =
      fetchCycles (init d first) + elapsed / 5000 := by
  unfold mountedFor
  rw [init_interval]
  simp only
  rw [ticks_cycles]
  simp [firesWithin]

/-- C14, as stated, fails once 10 seconds have elapsed: at least 5 seconds have
elapsed, and two fetch cycles beyond the initial load have occurred. -/
theorem two_cycles_after_ten_seconds :
    5000 ≤ 10000 ∧
    fetchCycles (mountedFor blankPage failingRound (fun _ => failingRound) 10000) =
      fetchCycles (init blankPage failingRound) + 2 ∧
    fetchCycles (mountedFor blankPage failingRound (fun _ => failingRound) 10000) ≠
      fetchCycles (init blankPage failingRound) + 1 := by
  have h : fetchCycles (mountedFor blankPage failingRound (fun _ => failingRound) 10000) =
      fetchCycles (init blankPage failingRound) + 2 :=
    mountedFor_cycles blankPage failingRound (fun _ => failingRound) 10000
  exact ⟨by decide, h, by omega⟩

/-- C14, amended: the initial load is one fetch cycle, and `elapsed` ms after the
dashboard is mounted the timer of 5000 ms has added `elapsed / 5000` cycles,
which is exactly one when between 5 and 10 seconds have elapsed; each timer
fire issues the fetches of `updateStats`, `updateModels` and `updateActivity`
whatever the page and whatever the outcome of the earlier fetches. -/
theorem polling_cycles (d : Page) (first : Round) (later : Nat → Round) (elapsed : Nat)
    (e : Page) (r : Round) :
    fetchCycles (init d first) = fetchCycles d + 1 ∧
    fetchCycles (mountedFor d first later elapsed) =
      fetchCycles (init d first) + elapsed / 5000 ∧
    (5000 ≤ elapsed → elapsed < 10000 →
      fetchCycles (mountedFor d first later elapsed) = fetchCycles (init d first) + 1) ∧
    (tick e r).fetches = e.fetches ++ [get "/stats", get "/models", get "/stats"] := by
  refine ⟨?_, mountedFor_cycles d first later elapsed, fun h1 h2 => ?_, (tick_log e r).1⟩
  · unfold init
    rw [fetchCycles_cycle _ _ (loadInitialData_log _ _).1]
    rfl
  · rw [mountedFor_cycles]
    have : elapsed / 5000 = 1 := by omega
    rw [this]

/-- C14, amended, seven seconds after the mount with every request failing. -/
theorem polling_cycles_witness :
    fetchCycles (mountedFor blankPage failingRound (fun _ => failingRound) 7000) =
      fetchCycles (init blankPage failingRound) + 1 :=
  (polling_cycles blankPage failingRound (fun _ => failingRound) 7000 blankPage
    failingRound).2.2.1 (by decide) (by decide)

end RouterDashboard


namespace RouterDashboard

theorem dateOf_mono {x y : ℚ} (h : x ≤ y) : dateOf x ≤ dateOf y := by
  unfold dateOf
  by_cases hx : 0 ≤ x
  · rw [if_pos hx, if_pos (le_trans hx h)]
    exact Int.floor_mono h
  · rw [if_neg hx]
    by_cases hy : 0 ≤ y
    · rw [if_pos hy]
      have h1 : ⌈x⌉ ≤ 0 := Int.ceil_le.2 (by push_neg at hx; exact_mod_cast hx.le)
      have h2 : (0 : Int) ≤ ⌊y⌋ := Int.le_floor.2 (by exact_mod_cast hy)
      exact le_trans h1 h2
    · rw [if_neg hy]
      exact Int.ceil_mono h

theorem generateMockActivity_eq (stats : Stats) (now : Int) (r1 r2 : ℚ) :
    (generateMockActivity stats now r1 r2).map (fun a => (a.title, a.time)) =
      (if positive stats.total_requests then
        [(lit "Request processado", dateOf ((now : ℚ) - r1 * 300000))] else []) ++
      (if positive stats.total_cost then
        [(lit "Custo atualizado", dateOf ((now : ℚ) - r2 * 600000))] else []) := by
  unfold generateMockActivity slice0
  by_cases h1 : positive stats.total_requests = true <;>
  by_cases h2 : positive stats.total_cost = true <;>
  simp [h1, h2]

theorem generateMockActivity_times (stats : Stats) (now : Int) (r1 r2 : ℚ) :
    (generateMockActivity stats now r1 r2).map (fun a => a.time) =
      (if positive stats.total_requests then [dateOf ((now : ℚ) - r1 * 300000)] else []) ++
      (if positive stats.total_cost then [dateOf ((now : ℚ) - r2 * 600000)] else []) := by
  unfold generateMockActivity slice0
  by_cases h1 : positive stats.total_requests = true <;>
  by_cases h2 : positive stats.total_cost = true <;>
  simp [h1, h2]

/-- C15, as stated, fails for the draws 0.9 and 0.1: the first entry is dated
270 seconds before the clock reading and the second 60 seconds before it, so
the earlier entry comes first. -/
theorem later_entry_comes_second :
    (generateMockActivity someStats 1000000 (9 / 10) (1 / 10)).map (fun a => a.time) =
      [730000, 940000] ∧
    ¬ ((generateMockActivity someStats 1000000 (9 / 10) (1 / 10)).map
      (fun a => a.time)).Pairwise (fun a b => b ≤ a) := by
  have h : (generateMockActivity someStats 1000000 (9 / 10) (1 / 10)).map (fun a => a.time) =
      [730000, 940000] := by
    rw [generateMockActivity_times]
    have h1 : dateOf (((1000000 : Int) : ℚ) - 9 / 10 * 300000) = 730000 := by
      unfold dateOf
      norm_num
    have h2 : dateOf (((1000000 : Int) : ℚ) - 1 / 10 * 600000) = 940000 := by
      unfold dateOf
      norm_num
    rw [h1, h2]
    rfl
  refine ⟨h, ?_⟩
  rw [h]
  decide

/-- C15, amended: the entries are in construction order, the request entry before
the cost entry, dated `r1 * 300000` ms and `r2 * 600000` ms before the clock
reading; they are most-recent-first whenever `r1 * 300000 ≤ r2 * 600000`. -/
theorem activity_in_construction_order (stats : Stats) (now : Int) (r1 r2 : ℚ) :
    (generateMockActivity stats now r1 r2).map (fun a => (a.title, a.time)) =
      (if positive stats.total_requests then
        [(lit "Request processado", dateOf ((now : ℚ) - r1 * 300000))] else []) ++
      (if positive stats.total_cost then
        [(lit "Custo atualizado", dateOf ((now : ℚ) - r2 * 600000))] else []) ∧
    (r1 * 300000 ≤ r2 * 600000 →
      ((generateMockActivity stats now r1 r2).map (fun a => a.time)).Pairwise
        (fun a b => b ≤ a)) := by
  refine ⟨generateMockActivity_eq stats now r1 r2, fun h => ?_⟩
  rw [generateMockActivity_times]
  have hm : dateOf ((now : ℚ) - r2 * 600000) ≤ dateOf ((now : ℚ) - r1 * 300000) :=
    dateOf_mono (by linarith)
  by_cases h1 : positive stats.total_requests = true <;>
  by_cases h2 : positive stats.total_cost = true <;>
  simp [h1, h2, hm]

/-- C15, amended, for the draws 0.1 and 0.9. -/
theorem activity_in_construction_order_witness :
    ((generateMockActivity someStats 1000000 (1 / 10) (9 / 10)).map
      (fun a => a.time)).Pairwise (fun a b => b ≤ a) :=
  (activity_in_construction_order someStats 1000000 (1 / 10) (9 / 10)).2 (by norm_num)

theorem updateModelsLoop_eq (models : List (JSString × ModelInfo)) :
    ∀ (grid : List ModelCard) (activeCount : Nat),
    updateModelsLoop grid activeCount models =
      (grid ++ models.map (fun e => modelCard e.1 e.2),
        activeCount + models.countP (fun e => e.2.available)) := by
  induction models with
  | nil => intro grid activeCount; simp [updateModelsLoop]
  | cons e models ih =>
    intro grid activeCount
    obtain ⟨modelName, modelData⟩ := e
    rw [updateModelsLoop, ih]
    by_cases h : modelData.available = true
    · simp [h, List.countP_cons]; omega
    · simp [h, List.countP_cons]

theorem setMember_new {α : Type} (members : List (JSString × α)) (key : JSString) (value : α)
    (h : key ∉ members.map Prod.fst) : setMember members key value = members ++ [(key, value)] := by
  unfold setMember
  have : members.any (fun e => e.1 == key) = false := by
    rw [Bool.eq_false_iff]
    intro hany
    rw [List.any_eq_true] at hany
    obtain ⟨e, he, hk⟩ := hany
    exact h (List.mem_map.2 ⟨e, he, by simpa using hk⟩)
  rw [this]
  rfl

theorem foldl_setMember {α : Type} (body : List (JSString × α)) :
    ∀ object : List (JSString × α), ((object ++ body).map Prod.fst).Nodup →
    body.foldl (fun object e => setMember object e.1 e.2) object = object ++ body := by
  induction body with
  | nil => intro object _; simp
  | cons e body ih =>
    intro object h
    have hnew : e.1 ∉ object.map Prod.fst := by
      rw [List.map_append, List.map_cons] at h
      have := (List.nodup_append.1 h).2.2
      intro hmem
      exact this hmem (List.mem_cons_self _ _)
    rw [List.foldl_cons, setMember_new object e.1 e.2 hnew, ih]
    · simp
    · simpa using h

theorem parseObject_of_nodup {α : Type} (body : List (JSString × α))
    (h : (body.map Prod.fst).Nodup) : parseObject body = body := by
  unfold parseObject
  rw [foldl_setMember body [] (by simpa using h)]
  rfl

theorem objectEntries_perm {α : Type} (members : List (JSString × α)) :
    (objectEntries members).Perm members := by
  unfold objectEntries
  exact ((List.perm_insertionSort _ _).append_right _).trans
    (List.filter_append_perm (fun e => (arrayIndex e.1).isSome) members)

theorem objectEntries_of_no_index {α : Type} (members : List (JSString × α))
    (h : ∀ e ∈ members, arrayIndex e.1 = none) : objectEntries members = members := by
  unfold objectEntries
  have h1 : members.filter (fun e => (arrayIndex e.1).isSome) = [] := by
    rw [List.filter_eq_nil_iff]
    intro e he
    simp [h e he]
  have h2 : members.filter (fun e => !(arrayIndex e.1).isSome) = members := by
    rw [List.filter_eq_self]
    intro e he
    simp [h e he]
  rw [h1, h2]
  rfl

theorem updateModels_object (d : Page) (body : List (JSString × ModelInfo)) :
    (updateModels d (.object { models := some body })).1.modelsGrid =
      (objectEntries (parseObject body)).map (fun e => modelCard e.1 e.2) ∧
    (updateModels d (.object { models := some body })).1.activeModels =
      some ((objectEntries (parseObject body)).countP (fun e => e.2.available)) := by
  simp only [updateModels, updateModelsTry, updateModelsLoop_eq]
  simp

/-- C16, as stated, fails on two responses.  With the keys `b`, `10`, `9` in the
body the cards are in the order `9`, `10`, `b`, not in the key order of the
response; and on a body without `models` the grid is emptied while the count
shown stays 3. -/
theorem updateModels_key_order_and_stale_count :
    keyedModels.map Prod.fst = [lit "b", lit "10", lit "9"] ∧
    (updateModels blankPage (.object { models := some keyedModels })).1.modelsGrid.map
      (fun c => c.name) = [lit "9", lit "10", lit "b"] ∧
    (updateModels blankPage (.object { models := some keyedModels })).1.modelsGrid.map
      (fun c => c.name) ≠ keyedModels.map Prod.fst ∧
    shownPage.activeModels = some 3 ∧
    (updateModels shownPage (.object { models := none })).1.modelsGrid = [] ∧
    (updateModels shownPage (.object { models := none })).1.activeModels = some 3 := by
  have h : (updateModels blankPage (.object { models := some keyedModels })).1.modelsGrid.map
      (fun c => c.name) = [lit "9", lit "10", lit "b"] := by
    rw [(updateModels_object blankPage keyedModels).1, List.map_map]
    decide
  refine ⟨by decide, h, ?_, rfl, rfl, rfl⟩
  rw [h]
  decide

/-- C16, amended: for every `/models` response with a `models` object, whatever
the grid held before, after `updateModels` the grid holds the cards of the
entries of that object in the order of `Object.entries`, each with the name of
its model and marked `available` or `unavailable` by the flag of the model, and
the count shown is the number of entries whose flag is true.  When the keys of
the body are distinct that is one card per model of the response and the
number of available models of the response, and when moreover no key is an
array index the cards are in the key order of the response.  For a response
without `models` the grid is emptied and the count shown is left as it was. -/
theorem updateModels_rebuilds_grid (d : Page) (body : List (JSString × ModelInfo)) :
    (updateModels d (.object { models := some body })).1.modelsGrid =
      (objectEntries (parseObject body)).map (fun e => modelCard e.1 e.2) ∧
    (updateModels d (.object { models := some body })).1.modelsGrid.map
        (fun c => (c.name, c.className)) =
      (objectEntries (parseObject body)).map (fun e => (e.1, lit "model-card " ++
        (if e.2.available then lit "available" else lit "unavailable"))) ∧
    (updateModels d (.object { models := some body })).1.activeModels =
      some ((objectEntries (parseObject body)).countP (fun e => e.2.available)) ∧
    ((body.map Prod.fst).Nodup →
      ((updateModels d (.object { models := some body })).1.modelsGrid).Perm
        (body.map (fun e => modelCard e.1 e.2)) ∧
      (updateModels d (.object { models := some body })).1.activeModels =
        some (body.countP (fun e => e.2.available))) ∧
    ((body.map Prod.fst).Nodup → (∀ e ∈ body, arrayIndex e.1 = none) →
      (updateModels d (.object { models := some body })).1.modelsGrid =
        body.map (fun e => modelCard e.1 e.2)) ∧
    (updateModels d (.object { models := none })).1.modelsGrid = [] ∧
    (updateModels d (.object { models := none })).1.activeModels = d.activeModels := by
  have h := updateModels_object d body
  refine ⟨h.1, ?_, h.2, fun hn => ?_, fun hn hi => ?_, rfl, rfl⟩
  · rw [h.1, List.map_map]
    rfl
  · rw [h.1, h.2, parseObject_of_nodup body hn]
    exact ⟨(objectEntries_perm body).map _,
      congrArg some ((objectEntries_perm body).countP_eq _)⟩
  · rw [h.1, parseObject_of_nodup body hn, objectEntries_of_no_index body hi]

/-- C16, amended, on a response with two named models. -/
theorem updateModels_rebuilds_grid_witness :
    (updateModels shownPage (.object { models := some namedModels })).1.modelsGrid =
      namedModels.map (fun e => modelCard e.1 e.2) ∧
    (updateModels shownPage (.object { models := some namedModels })).1.activeModels =
      some (namedModels.countP (fun e => e.2.available)) :=
  ⟨(updateModels_rebuilds_grid shownPage namedModels).2.2.2.2.1 (by decide) (by decide),
    ((updateModels_rebuilds_grid shownPage namedModels).2.2.2.1 (by decide)).2⟩

/-- C17: whatever the three requests of `loadInitialData` end with, none of
`updateStats`, `updateModels` and `updateActivity` rejects, and
`loadInitialData` ends by `setStatus` with `online`: the status shown is
Online, never Offline. -/
theorem loadInitialData_sets_online (d : Page) (r : Round) :
    (updateStats d r.stats).2 = none ∧
    (updateModels (updateStats d r.stats).1 r.models).2 = none ∧
    (updateActivity (updateModels (updateStats d r.stats).1 r.models).1
      r.activity r.draws).2 = none ∧
    loadInitialData d r =
      setStatus (updateActivity (updateModels (updateStats d r.stats).1 r.models).1
        r.activity r.draws).1 (lit "online") ∧
    (loadInitialData d r).statusText = lit "Online" ∧
    (loadInitialData d r).statusDotOnline = true := by
  refine ⟨updateStats_no_reject _ _, updateModels_no_reject _ _,
    updateActivity_no_reject _ _ _, loadInitialData_eq d r, ?_, ?_⟩ <;>
  · rw [loadInitialData_eq]
    rfl

end RouterDashboard

end RouterLLM
